import Mathlib

/-!
Verification of the WhatsApp/Gemini webhook relay (`src/main.py`):
shallow embedding of the FastAPI application in `src/main.py`.

Modelling conventions:
* JSON values are the inductive `Json`; Python `None` is `Json.null`.
* Python exceptions are the inductive `PyErr`; fallible code runs in the
  monad `M α := Trace → Except PyErr α × Trace`, which threads a `Trace`
  recording every outbound HTTP call attempt (and the log lines emitted).
  An exception does not roll the trace back, mirroring Python.
* Outcomes of the external services (Meta graph API, Gemini, the send
  endpoint) are an explicit `Env` record, one field per endpoint; the send
  endpoint's outcome is indexed by how many send calls were made before it
  in the same request, since a request can send twice (reply + apology).
* `pyStr` approximates Python `str()` (exact for strings, numbers,
  booleans and `None`; container rendering and exception messages are
  approximated, no claim depends on their exact text).
* Component invocations of the "Inference Client" (`analyze_image`,
  `answer_question`) are recorded as `Call.inferImageCall` /
  `Call.inferTextCall` at function entry, distinct from the outbound
  Gemini HTTP calls `Call.geminiVision` / `Call.geminiText`.
-/

namespace WABot

/-- JSON values (the shape of webhook bodies and HTTP response bodies). -/
inductive Json where
  | null : Json
  | bool : Bool → Json
  | num : Int → Json
  | str : String → Json
  | arr : List Json → Json
  | obj : List (String × Json) → Json
deriving Repr

mutual

/-- Structural equality test on JSON values (Python `==` between
JSON-shaped values). -/
def Json.beq : Json → Json → Bool
  | Json.null, Json.null => true
  | Json.bool a, Json.bool b => a == b
  | Json.num a, Json.num b => a == b
  | Json.str a, Json.str b => a == b
  | Json.arr xs, Json.arr ys => Json.beqList xs ys
  | Json.obj xs, Json.obj ys => Json.beqObj xs ys
  | _, _ => false

/-- Elementwise equality of JSON lists. -/
def Json.beqList : List Json → List Json → Bool
  | [], [] => true
  | x :: xs, y :: ys => Json.beq x y && Json.beqList xs ys
  | _, _ => false

/-- Elementwise equality of JSON object entry lists. -/
def Json.beqObj : List (String × Json) → List (String × Json) → Bool
  | [], [] => true
  | (k, v) :: xs, (k', v') :: ys => k == k' && Json.beq v v' && Json.beqObj xs ys
  | _, _ => false

end

instance instBEqJson : BEq Json := ⟨Json.beq⟩

@[simp] theorem Json.beq_eq (a b : Json) : (a == b) = Json.beq a b := rfl

/-- Python truthiness of a JSON-ish value (`if x:`). -/
def truthy : Json → Bool
  | Json.null => false
  | Json.bool b => b
  | Json.num n => n != 0
  | Json.str s => s != ""
  | Json.arr xs => !xs.isEmpty
  | Json.obj kvs => !kvs.isEmpty

/-- Truthiness of an optional environment-variable string (`if not TOKEN:`). -/
def truthyOpt : Option String → Bool
  | none => false
  | some s => s != ""

/-- First-match association lookup, i.e. Python `dict` access order. -/
def lookupKey : List (String × Json) → String → Option Json
  | [], _ => none
  | (k', v) :: rest, k => if k' = k then some v else lookupKey rest k

/-- `needle` occurs as a contiguous substring of `hay` (Python `needle in hay`). -/
def strContains (hay needle : String) : Bool :=
  (List.range (hay.toList.length + 1)).any fun k =>
    needle.toList.isPrefixOf (hay.toList.drop k)

/-- Python exceptions raised by the embedded code. -/
inductive PyErr where
  | keyError : String → PyErr
  | indexError : PyErr
  | typeError : PyErr
  | attributeError : PyErr
  | jsonDecodeError : PyErr
  | httpStatusError : Nat → String → PyErr
  | transportError : String → PyErr
deriving Repr, DecidableEq

/-- `kvs` has an entry for key `k` (Python `k in d` on a dict). -/
def hasKey (kvs : List (String × Json)) (k : String) : Bool :=
  kvs.any fun kv => kv.1 == k

/-- Approximation of Python `str(e)` on an exception (no claim depends on
the exact wording of exception texts). -/
def pyErrStr : PyErr → String
  | PyErr.keyError k => k
  | PyErr.indexError => "list index out of range"
  | PyErr.typeError => "type error"
  | PyErr.attributeError => "attribute error"
  | PyErr.jsonDecodeError => "Expecting value"
  | PyErr.httpStatusError st _ => "HTTP status error " ++ toString st
  | PyErr.transportError m => m

/-- Approximation of Python `str()` / f-string interpolation of a JSON-ish
value.  Exact on strings, `None`, booleans and integers; container
rendering elides the quoting Python's `repr` would add to nested strings
(no claim depends on it). -/
def pyStr : Json → String
  | Json.null => "None"
  | Json.bool true => "True"
  | Json.bool false => "False"
  | Json.num n => toString n
  | Json.str s => s
  | Json.arr xs => "[" ++ String.intercalate ", " (xs.map fun x => pyStrShallow x) ++ "]"
  | Json.obj kvs => "\x7b" ++ String.intercalate ", " (kvs.map fun kv => kv.1 ++ ": " ++ pyStrShallow kv.2) ++ "\x7d"
where
  /-- one-level rendering for container elements -/
  pyStrShallow : Json → String
  | Json.null => "None"
  | Json.bool true => "True"
  | Json.bool false => "False"
  | Json.num n => toString n
  | Json.str s => s
  | Json.arr _ => "[...]"
  | Json.obj _ => "\x7b...\x7d"

mutual

/-- All string leaf values of a JSON value, in order (object keys are
structural, not data, and are excluded). -/
def Json.strVals : Json → List String
  | Json.str s => [s]
  | Json.arr xs => Json.strValsList xs
  | Json.obj kvs => Json.strValsObj kvs
  | _ => []

/-- String leaves of a JSON list. -/
def Json.strValsList : List Json → List String
  | [] => []
  | x :: xs => Json.strVals x ++ Json.strValsList xs

/-- String leaves of the values of a JSON object. -/
def Json.strValsObj : List (String × Json) → List String
  | [] => []
  | (_, v) :: kvs => Json.strVals v ++ Json.strValsObj kvs

end

/-- The base64 alphabet (RFC 4648), as used by `base64.b64encode`. -/
def b64Chars : List Char :=
  "ABCDEFGHIJKLMNOPQRSTUVWXYZabcdefghijklmnopqrstuvwxyz0123456789+/".toList

/-- Character of the base64 alphabet at index `n`. -/
def b64At (n : Nat) : Char := b64Chars.getD n 'A'

/-- `base64.b64encode(bytes).decode("utf-8")` on a byte list (each byte
taken mod 256). -/
def b64encode : List Nat → String
  | [] => ""
  | [a] =>
    let a' := a % 256
    String.mk [b64At (a' / 4), b64At (a' % 4 * 16), '=', '=']
  | [a, b] =>
    let a' := a % 256
    let b' := b % 256
    String.mk [b64At (a' / 4), b64At (a' % 4 * 16 + b' / 16), b64At (b' % 16 * 4), '=']
  | a :: b :: c :: rest =>
    let a' := a % 256
    let b' := b % 256
    let c' := c % 256
    String.mk [b64At (a' / 4), b64At (a' % 4 * 16 + b' / 16),
      b64At (b' % 16 * 4 + c' / 64), b64At (c' % 64)] ++ b64encode rest

/-- One outbound HTTP call attempt, or one Inference-Client invocation,
made while handling a webhook request. -/
inductive Call where
  | mediaMeta : Json → Call
  | mediaDownload : Json → Call
  | geminiVision : String → Call
  | geminiText : Json → Call
  | send : Json → Json → Call
  | inferImageCall : List Nat → Call
  | inferTextCall : Json → Call
deriving Repr

/-- `c` is an outbound send call. -/
def Call.isSend : Call → Bool
  | Call.send _ _ => true
  | _ => false

/-- `c` is an Inference-Client invocation (image or text mode). -/
def Call.isInferCall : Call → Bool
  | Call.inferImageCall _ => true
  | Call.inferTextCall _ => true
  | _ => false

/-- `c` is a media-resolution or media-download call. -/
def Call.isMediaCall : Call → Bool
  | Call.mediaMeta _ => true
  | Call.mediaDownload _ => true
  | _ => false

/-- `c` is an outbound HTTP call to the Gemini endpoint. -/
def Call.isGeminiHttp : Call → Bool
  | Call.geminiVision _ => true
  | Call.geminiText _ => true
  | _ => false

/-- Per-request effect trace: call attempts and log lines, in order. -/
structure Trace where
  calls : List Call
  logs : List String
deriving Repr

/-- Send calls of a trace. -/
def sendsOf (t : Trace) : List Call := t.calls.filter Call.isSend

/-- Inference-Client invocations of a trace. -/
def inferCallsOf (t : Trace) : List Call := t.calls.filter Call.isInferCall

/-- Media calls of a trace. -/
def mediaCallsOf (t : Trace) : List Call := t.calls.filter Call.isMediaCall

/-- Outbound Gemini HTTP calls of a trace. -/
def geminiHttpOf (t : Trace) : List Call := t.calls.filter Call.isGeminiHttp

/-- The effect monad: state-threading of the trace, Python exceptions as
`Except.error`; an exception keeps the trace accumulated so far. -/
def M (α : Type) : Type := Trace → Except PyErr α × Trace

instance : Monad M where
  pure a := fun t => (Except.ok a, t)
  bind x f := fun t =>
    match x t with
    | (Except.ok a, t') => f a t'
    | (Except.error e, t') => (Except.error e, t')

/-- Raise a Python exception. -/
def M.throwPy {α : Type} (e : PyErr) : M α := fun t => (Except.error e, t)

/-- Lift a pure `Except` outcome (e.g. an `Env` field) into `M`. -/
def M.lift {α : Type} (x : Except PyErr α) : M α := fun t => (x, t)

/-- Record one call attempt. -/
def record (c : Call) : M Unit :=
  fun t => (Except.ok (), { t with calls := t.calls ++ [c] })

/-- Emit one log line (`logger.info` / `logger.warning` / `logger.error`). -/
def logMsg (s : String) : M Unit :=
  fun t => (Except.ok (), { t with logs := t.logs ++ [s] })

/-- Read the trace accumulated so far. -/
def getTrace : M Trace := fun t => (Except.ok t, t)

/-- Python `try: x except: h` — the handler sees the trace as extended by
the failed computation. -/
def tryCatch {α : Type} (x : M α) (h : PyErr → M α) : M α := fun t =>
  match x t with
  | (Except.ok a, t') => (Except.ok a, t')
  | (Except.error e, t') => h e t'

@[simp] theorem M.bind_apply {α β : Type} (x : M α) (f : α → M β) (t : Trace) :
    (x >>= f) t =
      match x t with
      | (Except.ok a, t') => f a t'
      | (Except.error e, t') => (Except.error e, t') := rfl

@[simp] theorem M.pure_apply {α : Type} (a : α) (t : Trace) :
    (pure a : M α) t = (Except.ok a, t) := rfl

@[simp] theorem M.throwPy_apply {α : Type} (e : PyErr) (t : Trace) :
    (M.throwPy e : M α) t = (Except.error e, t) := rfl

@[simp] theorem M.lift_apply {α : Type} (x : Except PyErr α) (t : Trace) :
    M.lift x t = (x, t) := rfl

@[simp] theorem record_apply (c : Call) (t : Trace) :
    record c t = (Except.ok (), { t with calls := t.calls ++ [c] }) := rfl

@[simp] theorem logMsg_apply (s : String) (t : Trace) :
    logMsg s t = (Except.ok (), { t with logs := t.logs ++ [s] }) := rfl

@[simp] theorem getTrace_apply (t : Trace) : getTrace t = (Except.ok t, t) := rfl

@[simp] theorem tryCatch_apply {α : Type} (x : M α) (h : PyErr → M α) (t : Trace) :
    tryCatch x h t =
      match x t with
      | (Except.ok a, t') => (Except.ok a, t')
      | (Except.error e, t') => h e t' := rfl

/-- Python subscript with a string key, as a pure outcome: `j[k]`.
`KeyError` on a dict missing the key, `TypeError` on non-dicts (lists,
strings, numbers …). -/
def pySubscriptSE (j : Json) (k : String) : Except PyErr Json :=
  match j with
  | Json.obj kvs =>
    match lookupKey kvs k with
    | some v => Except.ok v
    | none => Except.error (PyErr.keyError k)
  | _ => Except.error PyErr.typeError

/-- Python subscript with an integer index, as a pure outcome: `j[i]`.
`IndexError` past the end of a list or string, `KeyError` on dicts,
`TypeError` otherwise. -/
def pySubscriptNatE (j : Json) (i : Nat) : Except PyErr Json :=
  match j with
  | Json.arr xs =>
    match xs[i]? with
    | some v => Except.ok v
    | none => Except.error PyErr.indexError
  | Json.str s =>
    match s.toList[i]? with
    | some c => Except.ok (Json.str (String.mk [c]))
    | none => Except.error PyErr.indexError
  | Json.obj _ => Except.error (PyErr.keyError (toString i))
  | _ => Except.error PyErr.typeError

/-- `j[k]` in the effect monad. -/
def pySubscriptS (j : Json) (k : String) : M Json := M.lift (pySubscriptSE j k)

/-- `j[i]` in the effect monad. -/
def pySubscriptNat (j : Json) (i : Nat) : M Json := M.lift (pySubscriptNatE j i)

/-- The Gemini answer extraction
`result["candidates"][0]["content"]["parts"][0]["text"]`, a pure
expression (any of the subscripts may raise). -/
def extractCandidateText (result : Json) : Except PyErr Json := do
  let c0 ← pySubscriptSE result "candidates"
  let c1 ← pySubscriptNatE c0 0
  let c2 ← pySubscriptSE c1 "content"
  let c3 ← pySubscriptSE c2 "parts"
  let c4 ← pySubscriptNatE c3 0
  pySubscriptSE c4 "text"

/-- Python `j.get(k)` — `None` default; `AttributeError` on non-dicts. -/
def pyGet (j : Json) (k : String) : M Json :=
  match j with
  | Json.obj kvs => pure ((lookupKey kvs k).getD Json.null)
  | _ => M.throwPy PyErr.attributeError

/-- Python `j.get(k, d)`; `AttributeError` on non-dicts. -/
def pyGetD (j : Json) (k : String) (d : Json) : M Json :=
  match j with
  | Json.obj kvs => pure ((lookupKey kvs k).getD d)
  | _ => M.throwPy PyErr.attributeError

/-- Python `j.keys()`; `AttributeError` on non-dicts. -/
def pyKeys (j : Json) : M (List String) :=
  match j with
  | Json.obj kvs => pure (kvs.map Prod.fst)
  | _ => M.throwPy PyErr.attributeError

/-- Python membership test `needle in j`: key test on dicts, element test
on lists, substring test on strings, `TypeError` otherwise. -/
def pyContains (needle : String) (j : Json) : M Bool :=
  match j with
  | Json.obj kvs => pure (hasKey kvs needle)
  | Json.arr xs => pure (xs.any fun x => x == Json.str needle)
  | Json.str s => pure (strContains s needle)
  | _ => M.throwPy PyErr.typeError

/-- Python slice `j[:100]`: prefix of a string or list, `TypeError` on
anything else (dicts reject slice keys, numbers are not subscriptable). -/
def pySlice100 (j : Json) : M Json :=
  match j with
  | Json.str s => pure (Json.str ((s.toList.take 100).asString))
  | Json.arr xs => pure (Json.arr (xs.take 100))
  | _ => M.throwPy PyErr.typeError

/-- An HTTP response as seen by the client code: status code, the result
of `.json()` (which may itself raise), raw `.content` bytes, `.text`. -/
structure Resp where
  status : Nat
  jsonBody : Except PyErr Json
  content : List Nat
  text : String

/-- Outcomes of the external world for one webhook request, one field per
endpoint; `sendResp i` is the outcome of the `i`-th send call of the
request (a request can send twice: reply, then apology). -/
structure Env where
  mediaMetaResp : Except PyErr Resp
  mediaDownloadResp : Except PyErr Resp
  geminiVisionResp : Except PyErr Resp
  geminiTextResp : Except PyErr Resp
  sendResp : Nat → Except PyErr Resp

/-- Environment-sourced configuration (the module-level variables). -/
structure Config where
  whatsappToken : Option String
  phoneNumberId : Option String
  verifyToken : String
  geminiApiKey : Option String

/-- `httpx.Response.raise_for_status()`: raises `HTTPStatusError` unless
the status is a 2xx success. -/
def Resp.raiseForStatus (r : Resp) : M Unit :=
  if 200 ≤ r.status ∧ r.status ≤ 299 then pure () else
    M.throwPy (PyErr.httpStatusError r.status r.text)

/-! ## Translations of the functions of `src/main.py` -/

/-- `download_whatsapp_media` (main.py lines 75-91): resolve a media id to
a URL via the graph API, then fetch the bytes; `raise_for_status` on both
responses. -/
def download_whatsapp_media (env : Env) (media_id : Json) : M (List Nat) := do
  record (Call.mediaMeta media_id)
  let meta_resp ← M.lift env.mediaMetaResp
  meta_resp.raiseForStatus
  let mjson ← M.lift meta_resp.jsonBody
  let media_url ← pyGet mjson "url"
  record (Call.mediaDownload media_url)
  let img_resp ← M.lift env.mediaDownloadResp
  img_resp.raiseForStatus
  pure img_resp.content

/-- The two `except` clauses of `analyze_image` (main.py lines 141-149):
`except httpx.HTTPStatusError` first, then `except Exception`. -/
def analyzeImageFallback (e : PyErr) : M Json :=
  match e with
  | PyErr.httpStatusError st rtext => do
    logMsg ("Gemini API error: " ++ pyErrStr (PyErr.httpStatusError st rtext))
    if st = 429 then
      pure (Json.str "✅ Image received! (AI is temporarily busy - please try again in a moment)")
    else do
      logMsg ("Response body: " ++ rtext)
      pure (Json.str ("✅ Image received! (Analysis temporarily unavailable: " ++ toString st ++ ")"))
  | e => do
    logMsg ("Unexpected error in analyze_image: " ++ pyErrStr e)
    pure (Json.str "✅ Image received! (Analysis encountered an error)")

/-- `analyze_image` (main.py lines 94-149).  The entry of the function is
recorded as `Call.inferImageCall` (Inference-Client invocation); the
outbound Gemini POST, when it happens, as `Call.geminiVision`. -/
def analyze_image (cfg : Config) (env : Env) (image_bytes : List Nat) : M Json := do
  record (Call.inferImageCall image_bytes)
  if !truthyOpt cfg.geminiApiKey then
    pure (Json.str "✅ Image received! (Connect your AI model here to analyze it.)")
  else
    let b64_image := b64encode image_bytes
    tryCatch
      (do
        record (Call.geminiVision b64_image)
        let response ← M.lift env.geminiVisionResp
        if response.status = 429 then do
          logMsg "⚠️ Gemini rate limit hit"
          pure (Json.str "✅ Image received! (AI is temporarily busy - please try again in a moment)")
        else do
          response.raiseForStatus
          let result ← M.lift response.jsonBody
          M.lift (extractCandidateText result))
      analyzeImageFallback

/-- The two `except` clauses of `answer_question` (main.py lines
190-198). -/
def answerQuestionFallback (e : PyErr) : M Json :=
  match e with
  | PyErr.httpStatusError st rtext => do
    logMsg ("Gemini API error: " ++ pyErrStr (PyErr.httpStatusError st rtext))
    if st = 429 then
      pure (Json.str "⏳ I'm a bit busy right now. Please try again in a moment!")
    else do
      logMsg ("Response body: " ++ rtext)
      pure (Json.str "⚠️ Sorry, I encountered an error. Please try again later.")
  | e => do
    logMsg ("Unexpected error in answer_question: " ++ pyErrStr e)
    pure (Json.str "⚠️ Sorry, something went wrong. Please try again.")

/-- `answer_question` (main.py lines 152-198), same structure as
`analyze_image` with the text-mode canned strings. -/
def answer_question (cfg : Config) (env : Env) (question : Json) : M Json := do
  record (Call.inferTextCall question)
  if !truthyOpt cfg.geminiApiKey then
    pure (Json.str "🤖 AI is not configured. Please set up GEMINI_API_KEY.")
  else
    tryCatch
      (do
        record (Call.geminiText question)
        let response ← M.lift env.geminiTextResp
        if response.status = 429 then do
          logMsg "⚠️ Gemini rate limit hit"
          pure (Json.str "⏳ I'm a bit busy right now. Please try again in a moment!")
        else do
          response.raiseForStatus
          let result ← M.lift response.jsonBody
          M.lift (extractCandidateText result))
      answerQuestionFallback

/-- `send_whatsapp_message` (main.py lines 201-223): POST the text payload
to the platform's send endpoint; on non-200 status, log and
`raise_for_status`; returns `resp.json()` (which may itself raise). -/
def send_whatsapp_message (env : Env) (recipient msgBody : Json) : M Json := do
  let t ← getTrace
  let idx := (sendsOf t).length
  record (Call.send recipient msgBody)
  let resp ← M.lift (env.sendResp idx)
  if resp.status ≠ 200 then do
    logMsg ("❌ WhatsApp API error: " ++ toString resp.status ++ " - " ++ resp.text)
    resp.raiseForStatus
  else
    pure ()
  let rj ← M.lift resp.jsonBody
  logMsg ("✅ Message sent to " ++ pyStr recipient ++ ": " ++ pyStr rj)
  pure rj

/-- Query parameters of the GET /webhook verification handshake; a field
is `none` when the query parameter is absent. -/
structure VerifyParams where
  mode : Option String
  verifyTokenParam : Option String
  challenge : Option String
deriving Repr, DecidableEq

/-- Result of the GET /webhook verification: a 200 plain-text response
(Starlette renders `PlainTextResponse(None)` as an empty body) or the 403
`HTTPException`. -/
inductive VerifyResult where
  | okText : String → VerifyResult
  | forbidden : VerifyResult
deriving Repr, DecidableEq

/-- `verify_webhook` (main.py lines 244-262). -/
def verify_webhook (cfg : Config) (p : VerifyParams) : VerifyResult :=
  if p.mode = some "subscribe" ∧ p.verifyTokenParam = some cfg.verifyToken then
    VerifyResult.okText (p.challenge.getD "")
  else
    VerifyResult.forbidden

/-- The two early returns inside the `try` of `handle_webhook`. -/
inductive EarlyStatus where
  | ignoredNoEntry : EarlyStatus
  | noMessages : EarlyStatus
deriving Repr, DecidableEq

/-- The `{"status": s}` acknowledgment dicts of `handle_webhook`. -/
def statusJson (s : String) : Json := Json.obj [("status", Json.str s)]

/-- The best-effort error report to the user, shared shape of the two
inner `try: await send_whatsapp_message(...) except: log` blocks of
`handle_webhook` (main.py lines 330-337 and 351-358): attempt one send,
swallow (log only) any failure. -/
def apologyAttempt (env : Env) (recipient msgBody : Json) : M Unit :=
  tryCatch
    (do
      let _ ← send_whatsapp_message env recipient msgBody
      pure ())
    (fun _ => do
      logMsg "❌ Could not send error message to user")

/-- The inner reply-send `try` of the image branch (main.py lines
319-326): only `httpx.HTTPStatusError` is caught (and swallowed, log
only); any other send failure propagates. -/
def replySendAttempt (env : Env) (from_number : Json) (reply : String) : M Unit :=
  tryCatch
    (do
      let _ ← send_whatsapp_message env from_number (Json.str reply)
      logMsg "✅ Reply sent successfully")
    (fun e =>
      match e with
      | PyErr.httpStatusError st rtext => do
        logMsg ("❌ Failed to send reply: " ++ pyErrStr (PyErr.httpStatusError st rtext))
        if strContains rtext "131030" then
          logMsg "💡 TIP: Add this phone number to your allowed list in Meta Dashboard!"
        else
          pure ()
      | e => M.throwPy e)

/-- The download-analyze-reply `try` of the image branch (main.py lines
308-337), after the media reference and caption have been extracted. -/
def imageAttempt (cfg : Config) (env : Env) (from_number media_id caption : Json) : M Unit :=
  tryCatch
    (do
      let image_bytes ← download_whatsapp_media env media_id
      logMsg ("✅ Downloaded image: " ++ toString image_bytes.length ++ " bytes")
      let analysis ← analyze_image cfg env image_bytes
      let sl ← pySlice100 analysis
      logMsg ("🤖 Analysis complete: " ++ pyStr sl ++ "...")
      let reply0 := "🖼️ *Image Analysis*\n\n" ++ pyStr analysis
      let reply := if truthy caption then
          "📝 Caption: _" ++ pyStr caption ++ "_\n\n" ++ reply0
        else reply0
      replySendAttempt env from_number reply)
    (fun e => do
      logMsg ("❌ Error processing image: " ++ pyErrStr e)
      apologyAttempt env from_number
        (Json.str ("⚠️ Sorry, I encountered an error processing your image: " ++ pyErrStr e)))

/-- The image-message branch of `handle_webhook` (main.py lines 300-337),
starting after `msg_type == "image"` is known; `message` is the first
message dict. -/
def imageBranch (cfg : Config) (env : Env) (from_number message : Json) : M Unit := do
  let img ← pySubscriptS message "image"
  let idv ← pyGet img "id"
  let media_id ← if truthy idv then pure idv else pyGet img "media_id"
  let caption ← pyGetD img "caption" (Json.str "")
  logMsg ("🖼️ Image received from " ++ pyStr from_number ++ ", media_id=" ++ pyStr media_id)
  imageAttempt cfg env from_number media_id caption

/-- The answer-and-send `try` of the text branch (main.py lines 345-358). -/
def textAttempt (cfg : Config) (env : Env) (from_number textJ : Json) : M Unit :=
  tryCatch
    (do
      let answer ← answer_question cfg env textJ
      let _ ← send_whatsapp_message env from_number answer
      logMsg "✅ Answer sent successfully")
    (fun e => do
      logMsg ("❌ Error answering question: " ++ pyErrStr e)
      apologyAttempt env from_number
        (Json.str "⚠️ Sorry, I couldn't process your question. Please try again!"))

/-- The text-message branch of `handle_webhook` (main.py lines 340-358). -/
def textBranch (cfg : Config) (env : Env) (from_number message : Json) : M Unit := do
  let t0 ← pySubscriptS message "text"
  let textJ ← pySubscriptS t0 "body"
  logMsg ("💬 Text from " ++ pyStr from_number ++ ": " ++ pyStr textJ)
  textAttempt cfg env from_number textJ

/-- The unsupported-kind branch of `handle_webhook` (main.py lines
360-366). -/
def unsupportedBranch (env : Env) (from_number msg_type : Json) : M Unit := do
  logMsg ("⚠️ Unsupported message type: " ++ pyStr msg_type)
  let _ ← send_whatsapp_message env from_number
    (Json.str "⚠️ Sorry, I only support image messages right now.")
  pure ()

/-- The per-message dispatch of `handle_webhook` (main.py lines 293-366)
after the first message has been selected: read `from` and `type`, then
route on the message kind. -/
def messageDispatch (cfg : Config) (env : Env) (message : Json) : M (Option EarlyStatus) := do
  let from_number ← pySubscriptS message "from"
  let msg_type ← pyGet message "type"
  logMsg ("📨 Message type: " ++ pyStr msg_type ++ " from " ++ pyStr from_number)
  if msg_type == Json.str "image" then do
    imageBranch cfg env from_number message
    pure none
  else if msg_type == Json.str "text" then do
    textBranch cfg env from_number message
    pure none
  else do
    unsupportedBranch env from_number msg_type
    pure none

/-- Body of the `try:` block of `handle_webhook` (main.py lines 274-366).
`some` is one of the two early returns, `none` is falling through to the
final `return {"status": "ok"}`. -/
def webhook_try_block (cfg : Config) (env : Env) (body : Json) : M (Option EarlyStatus) := do
  let hasEntry ← pyContains "entry" body
  if !hasEntry then do
    logMsg "⚠️ No 'entry' field in webhook payload"
    pure (some EarlyStatus.ignoredNoEntry)
  else do
    let e0 ← pySubscriptS body "entry"
    let entry ← pySubscriptNat e0 0
    let c0 ← pySubscriptS entry "changes"
    let changes ← pySubscriptNat c0 0
    let value ← pySubscriptS changes "value"
    let ks ← pyKeys value
    logMsg ("📋 Webhook value keys: " ++ String.intercalate ", " ks)
    let messages ← pyGet value "messages"
    if !truthy messages then do
      logMsg "ℹ️ Webhook received but no messages (likely a status update)"
      pure (some EarlyStatus.noMessages)
    else do
      let message ← pySubscriptNat messages 0
      messageDispatch cfg env message

/-- The trace at entry of the `try:` block: no calls, the raw-payload log
of main.py line 272. -/
def initTrace (body : Json) : Trace :=
  { calls := [], logs := ["📩 Raw webhook payload: " ++ pyStr body] }

/-- The `except` clauses and final `return` of `handle_webhook` (main.py
lines 368-375): `except (KeyError, IndexError)` logs one way,
`except Exception` another; every outcome, early return included, becomes
a `{"status": ...}` acknowledgment (HTTP 200 in FastAPI). -/
def wrapStatus (r : Except PyErr (Option EarlyStatus) × Trace) : Json × Trace :=
  match r with
  | (Except.ok (some EarlyStatus.ignoredNoEntry), t) => (statusJson "ignored - no entry", t)
  | (Except.ok (some EarlyStatus.noMessages), t) => (statusJson "no messages", t)
  | (Except.ok none, t) => (statusJson "ok", t)
  | (Except.error (PyErr.keyError k), t) =>
    (statusJson "ok",
      { t with logs := t.logs ++ ["❌ Unexpected webhook structure: " ++ pyErrStr (PyErr.keyError k)] })
  | (Except.error PyErr.indexError, t) =>
    (statusJson "ok",
      { t with logs := t.logs ++ ["❌ Unexpected webhook structure: " ++ pyErrStr PyErr.indexError] })
  | (Except.error e, t) =>
    (statusJson "ok", { t with logs := t.logs ++ ["❌ Unexpected error: " ++ pyErrStr e] })

/-- `handle_webhook` (main.py lines 265-375) applied to an
already-JSON-parsed body. -/
def handle_webhook (cfg : Config) (env : Env) (body : Json) : Json × Trace :=
  wrapStatus (webhook_try_block cfg env body (initTrace body))

/-- The full POST /webhook endpoint including the body parse
`body = await request.json()` (main.py line 271), which runs BEFORE the
`try:` block: `none` stands for a request body that is not valid JSON, on
which `request.json()` raises and the exception escapes the handler (the
server then answers 500, not 200). -/
def handle_webhook_raw (cfg : Config) (env : Env) (rawBody : Option Json) :
    Except PyErr (Json × Trace) :=
  match rawBody with
  | none => Except.error PyErr.jsonDecodeError
  | some body => Except.ok (handle_webhook cfg env body)

/-- `health_check` (main.py lines 378-384). -/
def health_check (cfg : Config) : Json :=
  Json.obj [
    ("status", Json.str "running"),
    ("phone_number_id", (cfg.phoneNumberId.map Json.str).getD Json.null),
    ("gemini_connected", Json.bool (truthyOpt cfg.geminiApiKey))]

/-- `debug_config` (main.py lines 387-396); note the `verify_token` field
returns the configured verify secret itself. -/
def debug_config (cfg : Config) : Json :=
  Json.obj [
    ("whatsapp_token_set", Json.bool (truthyOpt cfg.whatsappToken)),
    ("whatsapp_token_preview",
      if truthyOpt cfg.whatsappToken then
        Json.str (((cfg.whatsappToken.getD "").take 20) ++ "...")
      else Json.null),
    ("phone_number_id", (cfg.phoneNumberId.map Json.str).getD Json.null),
    ("verify_token", Json.str cfg.verifyToken),
    ("gemini_key_set", Json.bool (truthyOpt cfg.geminiApiKey))]

/-! ## Canonical payload constructors used in the claims -/

/-- A webhook payload with a valid `entry → changes → value` nesting
around the given `value` dict. -/
def mkValuePayload (value : Json) : Json :=
  Json.obj [("entry", Json.arr [Json.obj [("changes", Json.arr [Json.obj
    [("value", value)]])]])]

/-- A webhook payload carrying the given first message in the platform's
`entry → changes → value → messages` nesting. -/
def mkPayload (msg : Json) : Json :=
  mkValuePayload (Json.obj [("messages", Json.arr [msg])])

/-- A well-formed inbound text message. -/
def mkTextMessage (sender : String) (body : Json) : Json :=
  Json.obj [("from", Json.str sender), ("type", Json.str "text"),
    ("text", Json.obj [("body", body)])]

/-- A well-formed inbound image message; `caption = none` models a message
without a caption field. -/
def mkImageMessage (sender mediaId : String) (caption : Option String) : Json :=
  Json.obj ([("from", Json.str sender), ("type", Json.str "image")] ++
    [("image", Json.obj ([("id", Json.str mediaId)] ++
      (match caption with
       | some c => [("caption", Json.str c)]
       | none => [])))])

/-! ## Derived value functions

These are not translations of further source code: they are closed-form
characterisations of the values the translated functions return, proven
equal to the runs of the translations below. -/

/-- The value `answerQuestionFallback` returns for each exception. -/
def answerFallbackValue (e : PyErr) : Json :=
  match e with
  | PyErr.httpStatusError st _ =>
    if st = 429 then Json.str "⏳ I'm a bit busy right now. Please try again in a moment!"
    else Json.str "⚠️ Sorry, I encountered an error. Please try again later."
  | _ => Json.str "⚠️ Sorry, something went wrong. Please try again."

/-- The value `analyzeImageFallback` returns for each exception. -/
def analyzeFallbackValue (e : PyErr) : Json :=
  match e with
  | PyErr.httpStatusError st _ =>
    if st = 429 then Json.str "✅ Image received! (AI is temporarily busy - please try again in a moment)"
    else Json.str ("✅ Image received! (Analysis temporarily unavailable: " ++ toString st ++ ")")
  | _ => Json.str "✅ Image received! (Analysis encountered an error)"

/-- Common result shape of the two Gemini wrappers once configured, as a
function of the endpoint's outcome. -/
def inferValue (canned : PyErr → Json) (busy : Json) (r : Except PyErr Resp) : Json :=
  match r with
  | Except.error e => canned e
  | Except.ok resp =>
    if resp.status = 429 then busy
    else if 200 ≤ resp.status ∧ resp.status ≤ 299 then
      match resp.jsonBody with
      | Except.error e => canned e
      | Except.ok j =>
        match extractCandidateText j with
        | Except.ok v => v
        | Except.error e => canned e
    else canned (PyErr.httpStatusError resp.status resp.text)

/-- The value `answer_question` returns, for every configuration and
environment (it never raises). -/
def answerValue (cfg : Config) (env : Env) : Json :=
  if !truthyOpt cfg.geminiApiKey then
    Json.str "🤖 AI is not configured. Please set up GEMINI_API_KEY."
  else
    inferValue answerFallbackValue
      (Json.str "⏳ I'm a bit busy right now. Please try again in a moment!")
      env.geminiTextResp

/-- The value `analyze_image` returns, for every configuration and
environment (it never raises). -/
def analyzeValue (cfg : Config) (env : Env) : Json :=
  if !truthyOpt cfg.geminiApiKey then
    Json.str "✅ Image received! (Connect your AI model here to analyze it.)"
  else
    inferValue analyzeFallbackValue
      (Json.str "✅ Image received! (AI is temporarily busy - please try again in a moment)")
      env.geminiVisionResp

/-- The outbound Gemini HTTP calls `answer_question` makes: none when the
credential is unconfigured, exactly one otherwise. -/
def geminiTextCalls (cfg : Config) (q : Json) : List Call :=
  if truthyOpt cfg.geminiApiKey then [Call.geminiText q] else []

/-- The outbound Gemini HTTP calls `analyze_image` makes. -/
def geminiVisionCalls (cfg : Config) (bs : List Nat) : List Call :=
  if truthyOpt cfg.geminiApiKey then [Call.geminiVision (b64encode bs)] else []

/-! ## Behaviour lemmas -/

theorem answerQuestionFallback_fst (e : PyErr) (t : Trace) :
    (answerQuestionFallback e t).1 = Except.ok (answerFallbackValue e) := by
  cases e
  case httpStatusError st rt =>
    by_cases h : st = 429 <;> simp [answerQuestionFallback, answerFallbackValue, h]
  all_goals simp [answerQuestionFallback, answerFallbackValue]

theorem answerQuestionFallback_calls (e : PyErr) (t : Trace) :
    (answerQuestionFallback e t).2.calls = t.calls := by
  cases e
  case httpStatusError st rt =>
    by_cases h : st = 429 <;> simp [answerQuestionFallback, h]
  all_goals simp [answerQuestionFallback]

theorem analyzeImageFallback_fst (e : PyErr) (t : Trace) :
    (analyzeImageFallback e t).1 = Except.ok (analyzeFallbackValue e) := by
  cases e
  case httpStatusError st rt =>
    by_cases h : st = 429 <;> simp [analyzeImageFallback, analyzeFallbackValue, h]
  all_goals simp [analyzeImageFallback, analyzeFallbackValue]

theorem analyzeImageFallback_calls (e : PyErr) (t : Trace) :
    (analyzeImageFallback e t).2.calls = t.calls := by
  cases e
  case httpStatusError st rt =>
    by_cases h : st = 429 <;> simp [analyzeImageFallback, h]
  all_goals simp [analyzeImageFallback]

/-- `answer_question` never raises: its value is `answerValue`, and its
only calls are the Inference-Client invocation plus (when configured) one
outbound Gemini HTTP call. -/
theorem answer_question_run (cfg : Config) (env : Env) (q : Json) (t : Trace) :
    (answer_question cfg env q t).1 = Except.ok (answerValue cfg env) ∧
    (answer_question cfg env q t).2.calls =
      t.calls ++ Call.inferTextCall q :: geminiTextCalls cfg q := by
  by_cases hk : truthyOpt cfg.geminiApiKey = true
  · rcases henv : env.geminiTextResp with e | resp
    · constructor <;>
        simp [answer_question, answerValue, geminiTextCalls, inferValue, hk, henv,
          answerQuestionFallback_fst, answerQuestionFallback_calls]
    · by_cases h429 : resp.status = 429
      · constructor <;>
          simp [answer_question, answerValue, geminiTextCalls, inferValue, hk, henv, h429]
      · by_cases h2xx : 200 ≤ resp.status ∧ resp.status ≤ 299
        · rcases hjb : resp.jsonBody with e | j
          · constructor <;>
              simp [answer_question, answerValue, geminiTextCalls, inferValue,
                Resp.raiseForStatus, hk, henv, h429, h2xx, hjb,
                answerQuestionFallback_fst, answerQuestionFallback_calls]
          · rcases hx : extractCandidateText j with e | v <;>
              constructor <;>
              simp [answer_question, answerValue, geminiTextCalls, inferValue,
                Resp.raiseForStatus, hk, henv, h429, h2xx, hjb, hx,
                answerQuestionFallback_fst, answerQuestionFallback_calls]
        · constructor <;>
            simp [answer_question, answerValue, geminiTextCalls, inferValue,
              Resp.raiseForStatus, hk, henv, h429, h2xx,
              answerQuestionFallback_fst, answerQuestionFallback_calls]
  · constructor <;>
      simp [answer_question, answerValue, geminiTextCalls, hk]

/-- `analyze_image` never raises: its value is `analyzeValue`, and its
only calls are the Inference-Client invocation plus (when configured) one
outbound Gemini HTTP call. -/
theorem analyze_image_run (cfg : Config) (env : Env) (bs : List Nat) (t : Trace) :
    (analyze_image cfg env bs t).1 = Except.ok (analyzeValue cfg env) ∧
    (analyze_image cfg env bs t).2.calls =
      t.calls ++ Call.inferImageCall bs :: geminiVisionCalls cfg bs := by
  by_cases hk : truthyOpt cfg.geminiApiKey = true
  · rcases henv : env.geminiVisionResp with e | resp
    · constructor <;>
        simp [analyze_image, analyzeValue, geminiVisionCalls, inferValue, hk, henv,
          analyzeImageFallback_fst, analyzeImageFallback_calls]
    · by_cases h429 : resp.status = 429
      · constructor <;>
          simp [analyze_image, analyzeValue, geminiVisionCalls, inferValue, hk, henv, h429]
      · by_cases h2xx : 200 ≤ resp.status ∧ resp.status ≤ 299
        · rcases hjb : resp.jsonBody with e | j
          · constructor <;>
              simp [analyze_image, analyzeValue, geminiVisionCalls, inferValue,
                Resp.raiseForStatus, hk, henv, h429, h2xx, hjb,
                analyzeImageFallback_fst, analyzeImageFallback_calls]
          · rcases hx : extractCandidateText j with e | v <;>
              constructor <;>
              simp [analyze_image, analyzeValue, geminiVisionCalls, inferValue,
                Resp.raiseForStatus, hk, henv, h429, h2xx, hjb, hx,
                analyzeImageFallback_fst, analyzeImageFallback_calls]
        · constructor <;>
            simp [analyze_image, analyzeValue, geminiVisionCalls, inferValue,
              Resp.raiseForStatus, hk, henv, h429, h2xx,
              analyzeImageFallback_fst, analyzeImageFallback_calls]
  · constructor <;>
      simp [analyze_image, analyzeValue, geminiVisionCalls, hk]

/-- Whatever the platform answers, a call to `send_whatsapp_message`
records exactly one send call. -/
theorem send_whatsapp_message_calls (env : Env) (rec b : Json) (t : Trace) :
    (send_whatsapp_message env rec b t).2.calls = t.calls ++ [Call.send rec b] := by
  rcases hs : env.sendResp (sendsOf t).length with e | r
  · simp [send_whatsapp_message, hs]
  · by_cases h200 : r.status = 200
    · rcases hjb : r.jsonBody with e | rj <;> simp [send_whatsapp_message, hs, h200, hjb]
    · by_cases h2xx : 200 ≤ r.status ∧ r.status ≤ 299
      · rcases hjb : r.jsonBody with e | rj <;>
          simp [send_whatsapp_message, Resp.raiseForStatus, hs, h200, h2xx, hjb]
      · simp [send_whatsapp_message, Resp.raiseForStatus, hs, h200, h2xx]

/-- `send_whatsapp_message` only appends log lines. -/
theorem send_whatsapp_message_logs (env : Env) (rec b : Json) (t : Trace) :
    ∃ lgs, (send_whatsapp_message env rec b t).2.logs = t.logs ++ lgs := by
  rcases hs : env.sendResp (sendsOf t).length with e | r
  · exact ⟨[], by simp [send_whatsapp_message, hs]⟩
  · by_cases h200 : r.status = 200
    · rcases hjb : r.jsonBody with e | rj
      · exact ⟨_, by simp [send_whatsapp_message, hs, h200, hjb]; rfl⟩
      · exact ⟨_, by simp [send_whatsapp_message, hs, h200, hjb]; rfl⟩
    · by_cases h2xx : 200 ≤ r.status ∧ r.status ≤ 299
      · rcases hjb : r.jsonBody with e | rj
        · exact ⟨_, by simp [send_whatsapp_message, Resp.raiseForStatus, hs, h200, h2xx, hjb]; rfl⟩
        · exact ⟨_, by simp [send_whatsapp_message, Resp.raiseForStatus, hs, h200, h2xx, hjb]; rfl⟩
      · exact ⟨_, by simp [send_whatsapp_message, Resp.raiseForStatus, hs, h200, h2xx]; rfl⟩

/-- A fully successful send: 200 status and parseable response body. -/
theorem send_whatsapp_message_ok (env : Env) (rec b : Json) (t : Trace) (r : Resp) (rj : Json)
    (hs : env.sendResp (sendsOf t).length = Except.ok r) (h200 : r.status = 200)
    (hjb : r.jsonBody = Except.ok rj) :
    send_whatsapp_message env rec b t =
      (Except.ok rj,
       ⟨t.calls ++ [Call.send rec b],
        t.logs ++ ["✅ Message sent to " ++ pyStr rec ++ ": " ++ pyStr rj]⟩) := by
  simp [send_whatsapp_message, hs, h200, hjb]

/-- A send whose HTTP call itself fails (transport error). -/
theorem send_whatsapp_message_err (env : Env) (rec b : Json) (t : Trace) (e : PyErr)
    (hs : env.sendResp (sendsOf t).length = Except.error e) :
    send_whatsapp_message env rec b t =
      (Except.error e, ⟨t.calls ++ [Call.send rec b], t.logs⟩) := by
  simp [send_whatsapp_message, hs]

/-- A send answered with a non-success HTTP status: logged, then
`raise_for_status` raises `HTTPStatusError`. -/
theorem send_whatsapp_message_httpErr (env : Env) (rec b : Json) (t : Trace) (r : Resp)
    (hs : env.sendResp (sendsOf t).length = Except.ok r) (hne : r.status ≠ 200)
    (hnx : ¬(200 ≤ r.status ∧ r.status ≤ 299)) :
    send_whatsapp_message env rec b t =
      (Except.error (PyErr.httpStatusError r.status r.text),
       ⟨t.calls ++ [Call.send rec b],
        t.logs ++ ["❌ WhatsApp API error: " ++ toString r.status ++ " - " ++ r.text]⟩) := by
  simp [send_whatsapp_message, Resp.raiseForStatus, hs, hne, hnx]

/-- The best-effort apology never raises and records exactly one send
attempt, whatever the platform answers. -/
theorem apologyAttempt_run (env : Env) (rec b : Json) (t : Trace) :
    (apologyAttempt env rec b t).1 = Except.ok () ∧
    (apologyAttempt env rec b t).2.calls = t.calls ++ [Call.send rec b] := by
  have hc := send_whatsapp_message_calls env rec b t
  rcases hx : send_whatsapp_message env rec b t with ⟨exc, t'⟩
  rw [hx] at hc
  simp only at hc
  cases exc <;> constructor <;> simp [apologyAttempt, hx, hc]

/-- The best-effort apology only appends log lines. -/
theorem apologyAttempt_logs (env : Env) (rec b : Json) (t : Trace) :
    ∃ lgs, (apologyAttempt env rec b t).2.logs = t.logs ++ lgs := by
  obtain ⟨lgs, hl⟩ := send_whatsapp_message_logs env rec b t
  rcases hx : send_whatsapp_message env rec b t with ⟨exc, t'⟩
  rw [hx] at hl
  simp only at hl
  cases exc
  · exact ⟨lgs ++ ["❌ Could not send error message to user"], by
      simp [apologyAttempt, hx, hl]⟩
  · exact ⟨lgs, by simp [apologyAttempt, hx, hl]⟩

/-- A successful two-step media download. -/
theorem download_whatsapp_media_ok (env : Env) (mid : Json) (t : Trace)
    (mr dr : Resp) (mkvs : List (String × Json))
    (h1 : env.mediaMetaResp = Except.ok mr) (h2 : mr.status = 200)
    (h3 : mr.jsonBody = Except.ok (Json.obj mkvs))
    (h4 : env.mediaDownloadResp = Except.ok dr) (h5 : dr.status = 200) :
    download_whatsapp_media env mid t =
      (Except.ok dr.content,
       ⟨t.calls ++ [Call.mediaMeta mid, Call.mediaDownload ((lookupKey mkvs "url").getD Json.null)],
        t.logs⟩) := by
  simp [download_whatsapp_media, Resp.raiseForStatus, pyGet, h1, h2, h3, h4, h5]

/-- A failed media resolution step: the error propagates out of
`download_whatsapp_media` after the single resolution attempt. -/
theorem download_whatsapp_media_metaFail (env : Env) (mid : Json) (t : Trace) (e : PyErr)
    (h : env.mediaMetaResp = Except.error e) :
    download_whatsapp_media env mid t =
      (Except.error e, ⟨t.calls ++ [Call.mediaMeta mid], t.logs⟩) := by
  simp [download_whatsapp_media, h]

/-- Reduction of `handle_webhook` on a canonical single-message payload to
the per-message dispatch. -/
theorem handle_webhook_dispatch (cfg : Config) (env : Env) (msg : Json) :
    handle_webhook cfg env (mkPayload msg) =
      wrapStatus (messageDispatch cfg env msg
        ⟨[], ["📩 Raw webhook payload: " ++ pyStr (mkPayload msg),
              "📋 Webhook value keys: " ++ String.intercalate ", " ["messages"]]⟩) := rfl

/-- Reduction of the dispatch on a well-formed text message to the text
branch. -/
theorem messageDispatch_text (cfg : Config) (env : Env) (sender : String) (q : Json) (t : Trace) :
    messageDispatch cfg env (mkTextMessage sender q) t =
      ((do
        textBranch cfg env (Json.str sender) (mkTextMessage sender q)
        pure none) : M (Option EarlyStatus))
        ⟨t.calls, t.logs ++ ["📨 Message type: " ++ pyStr (Json.str "text") ++ " from " ++
          pyStr (Json.str sender)]⟩ := rfl

/-- Reduction of the dispatch on a well-formed image message to the image
branch. -/
theorem messageDispatch_image (cfg : Config) (env : Env) (sender mediaId : String)
    (caption : Option String) (t : Trace) :
    messageDispatch cfg env (mkImageMessage sender mediaId caption) t =
      ((do
        imageBranch cfg env (Json.str sender) (mkImageMessage sender mediaId caption)
        pure none) : M (Option EarlyStatus))
        ⟨t.calls, t.logs ++ ["📨 Message type: " ++ pyStr (Json.str "image") ++ " from " ++
          pyStr (Json.str sender)]⟩ := by
  cases caption <;> rfl

/-- Projection corollaries of the run lemmas, shaped for `simp`. -/
theorem answer_question_fst (cfg : Config) (env : Env) (q : Json) (t : Trace) :
    (answer_question cfg env q t).1 = Except.ok (answerValue cfg env) :=
  (answer_question_run cfg env q t).1

theorem answer_question_calls (cfg : Config) (env : Env) (q : Json) (t : Trace) :
    (answer_question cfg env q t).2.calls =
      t.calls ++ Call.inferTextCall q :: geminiTextCalls cfg q :=
  (answer_question_run cfg env q t).2

theorem analyze_image_fst (cfg : Config) (env : Env) (bs : List Nat) (t : Trace) :
    (analyze_image cfg env bs t).1 = Except.ok (analyzeValue cfg env) :=
  (analyze_image_run cfg env bs t).1

theorem analyze_image_calls (cfg : Config) (env : Env) (bs : List Nat) (t : Trace) :
    (analyze_image cfg env bs t).2.calls =
      t.calls ++ Call.inferImageCall bs :: geminiVisionCalls cfg bs :=
  (analyze_image_run cfg env bs t).2

theorem apologyAttempt_fst (env : Env) (rec b : Json) (t : Trace) :
    (apologyAttempt env rec b t).1 = Except.ok () :=
  (apologyAttempt_run env rec b t).1

theorem apologyAttempt_calls (env : Env) (rec b : Json) (t : Trace) :
    (apologyAttempt env rec b t).2.calls = t.calls ++ [Call.send rec b] :=
  (apologyAttempt_run env rec b t).2

/-- The Gemini HTTP calls contribute no send calls. -/
theorem geminiTextCalls_filter_isSend (cfg : Config) (q : Json) :
    (geminiTextCalls cfg q).filter Call.isSend = [] := by
  by_cases hk : truthyOpt cfg.geminiApiKey = true <;>
    simp [geminiTextCalls, hk, Call.isSend]

theorem geminiVisionCalls_filter_isSend (cfg : Config) (bs : List Nat) :
    (geminiVisionCalls cfg bs).filter Call.isSend = [] := by
  by_cases hk : truthyOpt cfg.geminiApiKey = true <;>
    simp [geminiVisionCalls, hk, Call.isSend]

/-- A fully successful text turn: the inference answer is sent as the one
and only send call. -/
theorem textAttempt_ok (cfg : Config) (env : Env) (rec q : Json) (t : Trace)
    (r : Resp) (rj : Json) (hst : sendsOf t = [])
    (hs : env.sendResp 0 = Except.ok r) (h200 : r.status = 200)
    (hjb : r.jsonBody = Except.ok rj) :
    (textAttempt cfg env rec q t).1 = Except.ok () ∧
    (textAttempt cfg env rec q t).2.calls =
      t.calls ++ Call.inferTextCall q ::
        (geminiTextCalls cfg q ++ [Call.send rec (answerValue cfg env)]) := by
  have haf := answer_question_fst cfg env q t
  have hac := answer_question_calls cfg env q t
  rcases hx : answer_question cfg env q t with ⟨a, t'⟩
  rw [hx] at haf hac
  simp only at haf hac
  subst haf
  have hst' : sendsOf t' = [] := by
    simp only [sendsOf] at hst ⊢
    simp [hac, List.filter_append, hst, Call.isSend, geminiTextCalls_filter_isSend]
  have hsend := send_whatsapp_message_ok env rec (answerValue cfg env) t' r rj
    (by rw [hst']; simpa using hs) h200 hjb
  constructor <;>
    simp [textAttempt, hx, hsend, hac]

/-- A text turn whose reply send fails at the transport level: the
failure is caught and one apology send is attempted. -/
theorem textAttempt_sendFail (cfg : Config) (env : Env) (rec q : Json) (t : Trace)
    (e : PyErr) (hst : sendsOf t = [])
    (hs : env.sendResp 0 = Except.error e) :
    (textAttempt cfg env rec q t).1 = Except.ok () ∧
    (textAttempt cfg env rec q t).2.calls =
      t.calls ++ Call.inferTextCall q ::
        (geminiTextCalls cfg q ++
          [Call.send rec (answerValue cfg env),
           Call.send rec (Json.str "⚠️ Sorry, I couldn't process your question. Please try again!")]) := by
  have haf := answer_question_fst cfg env q t
  have hac := answer_question_calls cfg env q t
  rcases hx : answer_question cfg env q t with ⟨a, t'⟩
  rw [hx] at haf hac
  simp only at haf hac
  subst haf
  have hst' : sendsOf t' = [] := by
    simp only [sendsOf] at hst ⊢
    simp [hac, List.filter_append, hst, Call.isSend, geminiTextCalls_filter_isSend]
  have hsend := send_whatsapp_message_err env rec (answerValue cfg env) t' e
    (by rw [hst']; simpa using hs)
  constructor <;>
    simp [textAttempt, hx, hsend, hac, apologyAttempt_fst, apologyAttempt_calls]

/-- The reply text composed in the image branch (main.py lines 315-317):
analysis prefixed, when present, by the caption. -/
def imageReplyText (caption : Json) (ansStr : String) : String :=
  if truthy caption then
    "📝 Caption: _" ++ pyStr caption ++ "_\n\n" ++ ("🖼️ *Image Analysis*\n\n" ++ ansStr)
  else "🖼️ *Image Analysis*\n\n" ++ ansStr

/-- A fully successful reply send in the image branch. -/
theorem replySendAttempt_ok (env : Env) (rec : Json) (reply : String) (t : Trace)
    (r : Resp) (rj : Json)
    (hs : env.sendResp (sendsOf t).length = Except.ok r) (h200 : r.status = 200)
    (hjb : r.jsonBody = Except.ok rj) :
    replySendAttempt env rec reply t =
      (Except.ok (),
       ⟨t.calls ++ [Call.send rec (Json.str reply)],
        t.logs ++ ["✅ Message sent to " ++ pyStr rec ++ ": " ++ pyStr rj,
          "✅ Reply sent successfully"]⟩) := by
  have hsend := send_whatsapp_message_ok env rec (Json.str reply) t r rj hs h200 hjb
  simp [replySendAttempt, hsend]

/-- A reply send answered with an HTTP error status in the image branch:
the `HTTPStatusError` is swallowed (log only), no further send happens. -/
theorem replySendAttempt_httpErr (env : Env) (rec : Json) (reply : String) (t : Trace)
    (r : Resp)
    (hs : env.sendResp (sendsOf t).length = Except.ok r) (hne : r.status ≠ 200)
    (hnx : ¬(200 ≤ r.status ∧ r.status ≤ 299)) :
    (replySendAttempt env rec reply t).1 = Except.ok () ∧
    (replySendAttempt env rec reply t).2.calls = t.calls ++ [Call.send rec (Json.str reply)] := by
  have hsend := send_whatsapp_message_httpErr env rec (Json.str reply) t r hs hne hnx
  by_cases hc : strContains r.text "131030" = true <;>
    constructor <;> simp [replySendAttempt, hsend, hc]

/-- A fully successful image turn: media resolution, media download, one
inference invocation on the downloaded bytes, one send whose text embeds
the caption (when truthy) and the analysis. -/
theorem imageAttempt_ok (cfg : Config) (env : Env) (rec media_id caption : Json) (t : Trace)
    (mr dr r : Resp) (mkvs : List (String × Json)) (rj : Json) (ansStr : String)
    (hst : sendsOf t = [])
    (h1 : env.mediaMetaResp = Except.ok mr) (h2 : mr.status = 200)
    (h3 : mr.jsonBody = Except.ok (Json.obj mkvs))
    (h4 : env.mediaDownloadResp = Except.ok dr) (h5 : dr.status = 200)
    (hana : analyzeValue cfg env = Json.str ansStr)
    (hs : env.sendResp 0 = Except.ok r) (h200 : r.status = 200)
    (hjb : r.jsonBody = Except.ok rj) :
    (imageAttempt cfg env rec media_id caption t).1 = Except.ok () ∧
    (imageAttempt cfg env rec media_id caption t).2.calls =
      t.calls ++ Call.mediaMeta media_id ::
        Call.mediaDownload ((lookupKey mkvs "url").getD Json.null) ::
        Call.inferImageCall dr.content ::
        (geminiVisionCalls cfg dr.content ++
          [Call.send rec (Json.str (imageReplyText caption ansStr))]) := by
  simp only [sendsOf] at hst
  have hdl := download_whatsapp_media_ok env media_id t mr dr mkvs h1 h2 h3 h4 h5
  constructor <;>
  · rcases hy : analyze_image cfg env dr.content
        ⟨t.calls ++ [Call.mediaMeta media_id,
          Call.mediaDownload ((lookupKey mkvs "url").getD Json.null)],
         t.logs ++ ["✅ Downloaded image: " ++ toString dr.content.length ++ " bytes"]⟩
      with ⟨a, t'⟩
    have haf' : a = Except.ok (Json.str ansStr) := by
      have h := congrArg Prod.fst hy
      rw [analyze_image_fst, hana] at h
      simpa using h.symm
    have hac' : t'.calls = (t.calls ++ [Call.mediaMeta media_id,
          Call.mediaDownload ((lookupKey mkvs "url").getD Json.null)]) ++
          Call.inferImageCall dr.content :: geminiVisionCalls cfg dr.content := by
      have h := congrArg (fun p => (Prod.snd p).calls) hy
      simp only at h
      rw [analyze_image_calls] at h
      simpa using h.symm
    subst haf'
    by_cases hcap : truthy caption = true <;>
      simp [imageAttempt, replySendAttempt, send_whatsapp_message, sendsOf,
        Resp.raiseForStatus, hdl, hy, hac', hst, hs, h200, hjb,
        List.filter_append, Call.isSend, geminiVisionCalls_filter_isSend,
        pySlice100, imageReplyText, hcap, pyStr]

/-- An image turn whose media resolution fails: the error is caught at the
image-branch boundary, logged, and one apology send is attempted. -/
theorem imageAttempt_mediaFail (cfg : Config) (env : Env) (rec media_id caption : Json)
    (t : Trace) (e : PyErr) (h : env.mediaMetaResp = Except.error e) :
    (imageAttempt cfg env rec media_id caption t).1 = Except.ok () ∧
    (imageAttempt cfg env rec media_id caption t).2.calls =
      t.calls ++ [Call.mediaMeta media_id,
        Call.send rec
          (Json.str ("⚠️ Sorry, I encountered an error processing your image: " ++ pyErrStr e))] ∧
    ("❌ Error processing image: " ++ pyErrStr e) ∈ (imageAttempt cfg env rec media_id caption t).2.logs := by
  have hdl := download_whatsapp_media_metaFail env media_id t e h
  refine ⟨?_, ?_, ?_⟩
  · simp [imageAttempt, hdl, apologyAttempt_fst]
  · simp [imageAttempt, hdl, apologyAttempt_calls]
  · obtain ⟨lgs, hl⟩ := apologyAttempt_logs env rec
      (Json.str ("⚠️ Sorry, I encountered an error processing your image: " ++ pyErrStr e))
      ⟨t.calls ++ [Call.mediaMeta media_id],
       t.logs ++ ["❌ Error processing image: " ++ pyErrStr e]⟩
    simp only [imageAttempt, tryCatch_apply, M.bind_apply, logMsg_apply, M.pure_apply, hdl]
    simp [hl]

/-- An image turn whose reply send is answered with an HTTP error status:
the failure is swallowed with no apology attempt — the turn ends with the
single (failed) reply send. -/
theorem imageAttempt_replyHttpFail (cfg : Config) (env : Env) (rec media_id caption : Json)
    (t : Trace) (mr dr r : Resp) (mkvs : List (String × Json)) (ansStr : String)
    (hst : sendsOf t = [])
    (h1 : env.mediaMetaResp = Except.ok mr) (h2 : mr.status = 200)
    (h3 : mr.jsonBody = Except.ok (Json.obj mkvs))
    (h4 : env.mediaDownloadResp = Except.ok dr) (h5 : dr.status = 200)
    (hana : analyzeValue cfg env = Json.str ansStr)
    (hs : env.sendResp 0 = Except.ok r) (hne : r.status ≠ 200)
    (hnx : ¬(200 ≤ r.status ∧ r.status ≤ 299)) :
    (imageAttempt cfg env rec media_id caption t).1 = Except.ok () ∧
    (imageAttempt cfg env rec media_id caption t).2.calls =
      t.calls ++ Call.mediaMeta media_id ::
        Call.mediaDownload ((lookupKey mkvs "url").getD Json.null) ::
        Call.inferImageCall dr.content ::
        (geminiVisionCalls cfg dr.content ++
          [Call.send rec (Json.str (imageReplyText caption ansStr))]) := by
  simp only [sendsOf] at hst
  have hdl := download_whatsapp_media_ok env media_id t mr dr mkvs h1 h2 h3 h4 h5
  constructor <;>
  · rcases hy : analyze_image cfg env dr.content
        ⟨t.calls ++ [Call.mediaMeta media_id,
          Call.mediaDownload ((lookupKey mkvs "url").getD Json.null)],
         t.logs ++ ["✅ Downloaded image: " ++ toString dr.content.length ++ " bytes"]⟩
      with ⟨a, t'⟩
    have haf' : a = Except.ok (Json.str ansStr) := by
      have h := congrArg Prod.fst hy
      rw [analyze_image_fst, hana] at h
      simpa using h.symm
    have hac' : t'.calls = (t.calls ++ [Call.mediaMeta media_id,
          Call.mediaDownload ((lookupKey mkvs "url").getD Json.null)]) ++
          Call.inferImageCall dr.content :: geminiVisionCalls cfg dr.content := by
      have h := congrArg (fun p => (Prod.snd p).calls) hy
      simp only at h
      rw [analyze_image_calls] at h
      simpa using h.symm
    subst haf'
    by_cases hcap : truthy caption = true <;>
      by_cases hc : strContains r.text "131030" = true <;>
      simp [imageAttempt, replySendAttempt, send_whatsapp_message, sendsOf,
        Resp.raiseForStatus, hdl, hy, hac', hst, hs, hne, hnx, hc,
        List.filter_append, Call.isSend, geminiVisionCalls_filter_isSend,
        pySlice100, imageReplyText, hcap, pyStr]

/-- The unsupported-kind branch records exactly one send (the canned
unsupported-type message), whatever the platform answers. -/
theorem unsupportedBranch_calls (env : Env) (rec mt : Json) (t : Trace) :
    (unsupportedBranch env rec mt t).2.calls =
      t.calls ++ [Call.send rec (Json.str "⚠️ Sorry, I only support image messages right now.")] := by
  have hc := send_whatsapp_message_calls env rec
    (Json.str "⚠️ Sorry, I only support image messages right now.")
    ⟨t.calls, t.logs ++ ["⚠️ Unsupported message type: " ++ pyStr mt]⟩
  rcases hx : send_whatsapp_message env rec
      (Json.str "⚠️ Sorry, I only support image messages right now.")
      ⟨t.calls, t.logs ++ ["⚠️ Unsupported message type: " ++ pyStr mt]⟩ with ⟨exc, t'⟩
  rw [hx] at hc
  simp only at hc
  cases exc <;> simp [unsupportedBranch, hx, hc]

/-- The final `except`/`return` wrapper keeps the calls of the trace. -/
theorem wrapStatus_calls (r : Except PyErr (Option EarlyStatus) × Trace) :
    (wrapStatus r).2.calls = r.2.calls := by
  obtain ⟨exc, t⟩ := r
  cases exc with
  | ok o =>
    cases o with
    | none => rfl
    | some s => cases s <;> rfl
  | error e => cases e <;> rfl

/-- The status acknowledgment produced by the wrapper, by case on the
outcome of the `try:` block. -/
theorem wrapStatus_fst (exc : Except PyErr (Option EarlyStatus)) (t : Trace) :
    (wrapStatus (exc, t)).1 =
      match exc with
      | Except.ok (some EarlyStatus.ignoredNoEntry) => statusJson "ignored - no entry"
      | Except.ok (some EarlyStatus.noMessages) => statusJson "no messages"
      | _ => statusJson "ok" := by
  cases exc with
  | ok o =>
    cases o with
    | none => rfl
    | some s => cases s <;> rfl
  | error e => cases e <;> rfl

/-- Composition of a message branch with the wrapper, when the branch
completes without exception. -/
theorem wrap_branch_run (x : M Unit) (t : Trace) (hf : (x t).1 = Except.ok ()) :
    wrapStatus (((do
      x
      pure (none : Option EarlyStatus)) : M (Option EarlyStatus)) t) =
      (statusJson "ok", (x t).2) := by
  rcases hx : x t with ⟨exc, t'⟩
  rw [hx] at hf
  simp only at hf
  subst hf
  simp [wrapStatus, hx]

/-- Acknowledgment after a message branch, for any branch outcome: an
escaping exception is caught by the outer `except` clauses, the response
is `{"status": "ok"}` either way. -/
theorem wrap_branch_any_fst (x : M Unit) (t : Trace) :
    (wrapStatus (((do
      x
      pure (none : Option EarlyStatus)) : M (Option EarlyStatus)) t)).1 = statusJson "ok" := by
  rcases hx : x t with ⟨exc, t'⟩
  cases exc with
  | ok u =>
    cases u
    simp [hx, wrapStatus]
  | error e =>
    have h := wrapStatus_fst (Except.error e : Except PyErr (Option EarlyStatus)) t'
    simp only [M.bind_apply, hx]
    rw [h]

/-- Calls after a message branch, for any branch outcome. -/
theorem wrap_branch_any_calls (x : M Unit) (t : Trace) :
    (wrapStatus (((do
      x
      pure (none : Option EarlyStatus)) : M (Option EarlyStatus)) t)).2.calls = (x t).2.calls := by
  rcases hx : x t with ⟨exc, t'⟩
  cases exc with
  | ok u =>
    cases u
    simp [hx, wrapStatus]
  | error e =>
    have h := wrapStatus_calls (Except.error e, t')
    simp only [M.bind_apply, hx]
    rw [h]

/-- The Gemini HTTP calls are neither inference invocations nor media
calls. -/
theorem geminiTextCalls_filter_isInferCall (cfg : Config) (q : Json) :
    (geminiTextCalls cfg q).filter Call.isInferCall = [] := by
  by_cases hk : truthyOpt cfg.geminiApiKey = true <;>
    simp [geminiTextCalls, hk, Call.isInferCall]

theorem geminiVisionCalls_filter_isInferCall (cfg : Config) (bs : List Nat) :
    (geminiVisionCalls cfg bs).filter Call.isInferCall = [] := by
  by_cases hk : truthyOpt cfg.geminiApiKey = true <;>
    simp [geminiVisionCalls, hk, Call.isInferCall]

theorem geminiTextCalls_filter_isMediaCall (cfg : Config) (q : Json) :
    (geminiTextCalls cfg q).filter Call.isMediaCall = [] := by
  by_cases hk : truthyOpt cfg.geminiApiKey = true <;>
    simp [geminiTextCalls, hk, Call.isMediaCall]

theorem geminiVisionCalls_filter_isMediaCall (cfg : Config) (bs : List Nat) :
    (geminiVisionCalls cfg bs).filter Call.isMediaCall = [] := by
  by_cases hk : truthyOpt cfg.geminiApiKey = true <;>
    simp [geminiVisionCalls, hk, Call.isMediaCall]

/-- The trace at entry of `textAttempt` for the canonical text payload. -/
def textEntryTrace (sender : String) (q : Json) : Trace :=
  ⟨[], ["📩 Raw webhook payload: " ++ pyStr (mkPayload (mkTextMessage sender q)),
        "📋 Webhook value keys: " ++ String.intercalate ", " ["messages"],
        "📨 Message type: " ++ pyStr (Json.str "text") ++ " from " ++ pyStr (Json.str sender),
        "💬 Text from " ++ pyStr (Json.str sender) ++ ": " ++ pyStr q]⟩

/-- Full reduction of `handle_webhook` on the canonical text payload. -/
theorem handle_webhook_text (cfg : Config) (env : Env) (sender : String) (q : Json) :
    handle_webhook cfg env (mkPayload (mkTextMessage sender q)) =
      wrapStatus (((do
        textAttempt cfg env (Json.str sender) q
        pure (none : Option EarlyStatus)) : M (Option EarlyStatus))
        (textEntryTrace sender q)) := rfl

/-- The caption value the image branch extracts: the `caption` field when
present, the `.get` default `""` otherwise. -/
def captionJson : Option String → Json
  | some c => Json.str c
  | none => Json.str ""

/-- The trace at entry of `imageAttempt` for the canonical image payload. -/
def imageEntryTrace (sender mediaId : String) (caption : Option String) : Trace :=
  ⟨[], ["📩 Raw webhook payload: " ++ pyStr (mkPayload (mkImageMessage sender mediaId caption)),
        "📋 Webhook value keys: " ++ String.intercalate ", " ["messages"],
        "📨 Message type: " ++ pyStr (Json.str "image") ++ " from " ++ pyStr (Json.str sender),
        "🖼️ Image received from " ++ pyStr (Json.str sender) ++ ", media_id=" ++
          pyStr (Json.str mediaId)]⟩

/-- Full reduction of `handle_webhook` on the canonical image payload
(the media id must be truthy, else `media_id` falls back to the
`media_id` field). -/
theorem handle_webhook_image (cfg : Config) (env : Env) (sender mediaId : String)
    (caption : Option String) (hmid : (mediaId != "") = true) :
    handle_webhook cfg env (mkPayload (mkImageMessage sender mediaId caption)) =
      wrapStatus (((do
        imageAttempt cfg env (Json.str sender) (Json.str mediaId) (captionJson caption)
        pure (none : Option EarlyStatus)) : M (Option EarlyStatus))
        (imageEntryTrace sender mediaId caption)) := by
  cases caption <;>
    simp [handle_webhook, webhook_try_block, messageDispatch, imageBranch, initTrace,
      mkPayload, mkValuePayload, mkImageMessage, imageEntryTrace, captionJson,
      pyContains, hasKey, pySubscriptS, pySubscriptSE, pySubscriptNat, pySubscriptNatE,
      pyGet, pyGetD, pyKeys, lookupKey, truthy, Json.beq, hmid]

/-! ## Concrete fixtures used by witnesses and counterexamples -/

/-- A fully configured deployment. -/
def exCfg : Config :=
  { whatsappToken := some "EAAGtokenExample0123456789"
    phoneNumberId := some "555000111"
    verifyToken := "mysecrettoken"
    geminiApiKey := some "GKEY" }

/-- The same deployment without the AI credential. -/
def exCfgNoAI : Config := { exCfg with geminiApiKey := none }

/-- A 200 response with the given JSON body. -/
def exOkResp (j : Json) : Resp :=
  { status := 200, jsonBody := Except.ok j, content := [], text := "" }

/-- A Gemini response body with the given candidate text. -/
def exGeminiJson (ans : String) : Json :=
  Json.obj [("candidates", Json.arr [Json.obj [("content",
    Json.obj [("parts", Json.arr [Json.obj [("text", Json.str ans)]])])]])]

/-- An environment where every external call succeeds. -/
def exEnv : Env :=
  { mediaMetaResp := Except.ok (exOkResp (Json.obj [("url", Json.str "https://cdn/img1")]))
    mediaDownloadResp := Except.ok
      { status := 200, jsonBody := Except.error PyErr.jsonDecodeError,
        content := [1, 2, 3], text := "" }
    geminiVisionResp := Except.ok (exOkResp (exGeminiJson "a cat on a mat"))
    geminiTextResp := Except.ok (exOkResp (exGeminiJson "the answer"))
    sendResp := fun _ => Except.ok (exOkResp (Json.obj [("ok", Json.bool true)])) }

/-- As `exEnv`, but the Gemini text endpoint answers HTTP 503. -/
def exResp503 : Resp :=
  { status := 503, jsonBody := Except.ok Json.null, content := [], text := "overloaded" }

def exEnv503 : Env := { exEnv with geminiTextResp := Except.ok exResp503 }

/-- As `exEnv`, but both Gemini endpoints answer HTTP 429. -/
def exResp429 : Resp :=
  { status := 429, jsonBody := Except.ok Json.null, content := [], text := "" }

def exEnv429 : Env :=
  { exEnv with
    geminiTextResp := Except.ok exResp429
    geminiVisionResp := Except.ok exResp429 }

/-- As `exEnv`, but every send is answered with HTTP 500. -/
def exResp500 : Resp :=
  { status := 500, jsonBody := Except.ok Json.null, content := [], text := "server error" }

def exEnvSend500 : Env := { exEnv with sendResp := fun _ => Except.ok exResp500 }

/-! ## Claims -/

/-- C1, counterexample: a POST /webhook request whose body is not valid
JSON makes `body = await request.json()` (main.py line 271, before the
`try:` block) raise, and the exception escapes the handler — the server
answers 500, not 200. -/
theorem claim_C1_counterexample :
    handle_webhook_raw exCfg exEnv none = Except.error PyErr.jsonDecodeError := rfl

/-- C1 (amended): for every POST /webhook request whose body parses as
JSON, no exception escapes the handler and it returns HTTP 200 with one of
the three JSON status acknowledgments, regardless of the JSON body's shape
and of any internal failure (any environment). -/
theorem claim_C1 (cfg : Config) (env : Env) (body : Json) :
    handle_webhook_raw cfg env (some body) = Except.ok (handle_webhook cfg env body) ∧
    ((handle_webhook cfg env body).1 = statusJson "ignored - no entry" ∨
     (handle_webhook cfg env body).1 = statusJson "no messages" ∨
     (handle_webhook cfg env body).1 = statusJson "ok") := by
  refine ⟨rfl, ?_⟩
  unfold handle_webhook
  rcases hx : webhook_try_block cfg env body (initTrace body) with ⟨exc, t⟩
  rw [wrapStatus_fst]
  cases exc with
  | ok o =>
    cases o with
    | none => simp
    | some s => cases s <;> simp
  | error e => simp

/-- C3: the GET /webhook verifier echoes the challenge with success status
exactly when `hub.mode` is `"subscribe"` and `hub.verify_token` equals the
configured secret; any other combination yields HTTP 403. -/
theorem claim_C3 (cfg : Config) (mode tok : Option String) (c : String) :
    (verify_webhook cfg ⟨mode, tok, some c⟩ = VerifyResult.okText c ↔
      (mode = some "subscribe" ∧ tok = some cfg.verifyToken)) ∧
    (¬(mode = some "subscribe" ∧ tok = some cfg.verifyToken) →
      verify_webhook cfg ⟨mode, tok, some c⟩ = VerifyResult.forbidden) := by
  by_cases h : mode = some "subscribe" ∧ tok = some cfg.verifyToken <;>
    simp [verify_webhook, h]

/-- C3, witness: concrete handshake accepted, concrete wrong token
rejected. -/
theorem claim_C3_witness :
    verify_webhook exCfg ⟨some "subscribe", some "mysecrettoken", some "XYZ"⟩ =
      VerifyResult.okText "XYZ" ∧
    verify_webhook exCfg ⟨some "subscribe", some "wrongtoken", some "XYZ"⟩ =
      VerifyResult.forbidden :=
  ⟨(claim_C3 exCfg (some "subscribe") (some "mysecrettoken") "XYZ").1.mpr
      (by constructor <;> rfl),
   (claim_C3 exCfg (some "subscribe") (some "wrongtoken") "XYZ").2
      (by intro h; exact absurd h.2 (by decide))⟩

set_option maxRecDepth 4096 in
/-- C9, counterexample: `GET /debug` returns the configured webhook verify
secret in full (field `verify_token`, main.py line 394). -/
theorem claim_C9_counterexample :
    exCfg.verifyToken = "mysecrettoken" ∧
    (Json.strVals (debug_config exCfg)).contains "mysecrettoken" = true := by
  constructor <;> rfl

/-- C9 (amended): the two endpoints are read-only functions of the
configuration; `/health` exposes only the literal "running" and the phone
number id; `/debug` exposes the access token truncated to its first 20
characters, the phone number id, and — in full — the webhook verify
secret; the AI credential appears in neither (only presence booleans). -/
theorem claim_C9 (cfg : Config) (w p : String)
    (hw : cfg.whatsappToken = some w) (hwt : (w != "") = true)
    (hp : cfg.phoneNumberId = some p) :
    Json.strVals (health_check cfg) = ["running", p] ∧
    Json.strVals (debug_config cfg) = [w.take 20 ++ "...", p, cfg.verifyToken] := by
  constructor <;>
    simp [health_check, debug_config, Json.strVals, Json.strValsObj, Json.strValsList,
      hw, hp, truthyOpt, hwt]

set_option maxRecDepth 4096 in
/-- C9, witness: the amended claim at the concrete fixture. -/
theorem claim_C9_witness :
    Json.strVals (health_check exCfg) = ["running", "555000111"] ∧
    Json.strVals (debug_config exCfg) =
      ["EAAGtokenExample0123...", "555000111", "mysecrettoken"] := by
  have h := claim_C9 exCfg "EAAGtokenExample0123456789" "555000111" rfl rfl rfl
  refine ⟨h.1, ?_⟩
  rw [h.2]
  rfl

/-- C10: the verifier's decision ignores `hub.challenge`: the decision is
the same for every challenge value, a matching mode/token pair succeeds
even with the challenge absent (empty body), and any challenge string is
echoed unvalidated. -/
theorem claim_C10 (cfg : Config) (mode tok : Option String) :
    (∀ c c' : Option String,
      (verify_webhook cfg ⟨mode, tok, c⟩ = VerifyResult.forbidden ↔
       verify_webhook cfg ⟨mode, tok, c'⟩ = VerifyResult.forbidden)) ∧
    (mode = some "subscribe" → tok = some cfg.verifyToken →
      verify_webhook cfg ⟨mode, tok, none⟩ = VerifyResult.okText "" ∧
      ∀ ch : String, verify_webhook cfg ⟨mode, tok, some ch⟩ = VerifyResult.okText ch) := by
  constructor
  · intro c c'
    by_cases h : mode = some "subscribe" ∧ tok = some cfg.verifyToken <;>
      simp [verify_webhook, h]
  · intro h1 h2
    constructor <;> simp [verify_webhook, h1, h2]

/-- C10, witness: accepted handshake with the challenge absent yields an
empty 200 body at the concrete fixture. -/
theorem claim_C10_witness :
    verify_webhook exCfg ⟨some "subscribe", some "mysecrettoken", none⟩ =
      VerifyResult.okText "" ∧
    verify_webhook exCfg ⟨some "subscribe", some "mysecrettoken", some "anything"⟩ =
      VerifyResult.okText "anything" := by
  have h := (claim_C10 exCfg (some "subscribe") (some "mysecrettoken")).2 rfl rfl
  exact ⟨h.1, h.2 "anything"⟩

/-- C4: for every webhook payload whose first message is a well-formed
text message, when the outbound send succeeds, the dispatcher makes
exactly one Inference-Client invocation (text mode, on the message body)
and exactly one send call whose body is the value the inference call
returned (`answerValue`, the extracted answer or a canned degradation
string), and the webhook responds `{"status": "ok"}`. -/
theorem claim_C4 (cfg : Config) (env : Env) (sender : String) (q : Json)
    (r : Resp) (rj : Json)
    (hs : env.sendResp 0 = Except.ok r) (h200 : r.status = 200)
    (hjb : r.jsonBody = Except.ok rj) :
    inferCallsOf (handle_webhook cfg env (mkPayload (mkTextMessage sender q))).2 =
      [Call.inferTextCall q] ∧
    sendsOf (handle_webhook cfg env (mkPayload (mkTextMessage sender q))).2 =
      [Call.send (Json.str sender) (answerValue cfg env)] ∧
    (∀ t, (answer_question cfg env q t).1 = Except.ok (answerValue cfg env)) ∧
    (handle_webhook cfg env (mkPayload (mkTextMessage sender q))).1 = statusJson "ok" := by
  obtain ⟨hf, hc⟩ := textAttempt_ok cfg env (Json.str sender) q (textEntryTrace sender q) r rj
    (by simp [sendsOf, textEntryTrace]) hs h200 hjb
  rw [handle_webhook_text,
    wrap_branch_run (textAttempt cfg env (Json.str sender) q) (textEntryTrace sender q) hf]
  simp only [textEntryTrace] at hc
  refine ⟨?_, ?_, fun t => answer_question_fst cfg env q t, rfl⟩
  · simp only [inferCallsOf, textEntryTrace]
    rw [hc]
    simp [List.filter_append, Call.isInferCall, geminiTextCalls_filter_isInferCall]
  · simp only [sendsOf, textEntryTrace]
    rw [hc]
    simp [List.filter_append, Call.isSend, geminiTextCalls_filter_isSend]

/-- C4, witness: the concrete configured deployment with a successful
send. -/
theorem claim_C4_witness :
    inferCallsOf (handle_webhook exCfg exEnv (mkPayload (mkTextMessage "111" (Json.str "hi")))).2 =
      [Call.inferTextCall (Json.str "hi")] ∧
    sendsOf (handle_webhook exCfg exEnv (mkPayload (mkTextMessage "111" (Json.str "hi")))).2 =
      [Call.send (Json.str "111") (answerValue exCfg exEnv)] ∧
    (handle_webhook exCfg exEnv (mkPayload (mkTextMessage "111" (Json.str "hi")))).1 =
      statusJson "ok" := by
  have h := claim_C4 exCfg exEnv "111" (Json.str "hi")
    (exOkResp (Json.obj [("ok", Json.bool true)])) (Json.obj [("ok", Json.bool true)])
    rfl rfl rfl
  exact ⟨h.1, h.2.1, h.2.2.2⟩

/-- C5: for every webhook payload whose first message is a well-formed
image message (truthy media id), when media resolution, media download and
the send succeed and the analysis is a string, the dispatcher makes one
media-resolution call, one media-download call, one Inference-Client
invocation in image mode on the downloaded bytes, and one send call; the
sent text embeds the analysis, prefixed by the caption when a non-empty
caption was carried. -/
theorem claim_C5 (cfg : Config) (env : Env) (sender mediaId : String) (caption : Option String)
    (mr dr r : Resp) (mkvs : List (String × Json)) (rj : Json) (ansStr : String)
    (hmid : (mediaId != "") = true)
    (h1 : env.mediaMetaResp = Except.ok mr) (h2 : mr.status = 200)
    (h3 : mr.jsonBody = Except.ok (Json.obj mkvs))
    (h4 : env.mediaDownloadResp = Except.ok dr) (h5 : dr.status = 200)
    (hana : analyzeValue cfg env = Json.str ansStr)
    (hs : env.sendResp 0 = Except.ok r) (h200 : r.status = 200)
    (hjb : r.jsonBody = Except.ok rj) :
    mediaCallsOf (handle_webhook cfg env (mkPayload (mkImageMessage sender mediaId caption))).2 =
      [Call.mediaMeta (Json.str mediaId),
       Call.mediaDownload ((lookupKey mkvs "url").getD Json.null)] ∧
    inferCallsOf (handle_webhook cfg env (mkPayload (mkImageMessage sender mediaId caption))).2 =
      [Call.inferImageCall dr.content] ∧
    sendsOf (handle_webhook cfg env (mkPayload (mkImageMessage sender mediaId caption))).2 =
      [Call.send (Json.str sender) (Json.str (imageReplyText (captionJson caption) ansStr))] ∧
    (∀ c, caption = some c → (c != "") = true →
      imageReplyText (captionJson caption) ansStr =
        "📝 Caption: _" ++ c ++ "_\n\n" ++ ("🖼️ *Image Analysis*\n\n" ++ ansStr)) ∧
    (caption = none →
      imageReplyText (captionJson caption) ansStr = "🖼️ *Image Analysis*\n\n" ++ ansStr) ∧
    (handle_webhook cfg env (mkPayload (mkImageMessage sender mediaId caption))).1 =
      statusJson "ok" := by
  obtain ⟨hf, hc⟩ := imageAttempt_ok cfg env (Json.str sender) (Json.str mediaId)
    (captionJson caption) (imageEntryTrace sender mediaId caption) mr dr r mkvs rj ansStr
    (by simp [sendsOf, imageEntryTrace]) h1 h2 h3 h4 h5 hana hs h200 hjb
  rw [handle_webhook_image cfg env sender mediaId caption hmid,
    wrap_branch_run _ _ hf]
  simp only [imageEntryTrace] at hc
  refine ⟨?_, ?_, ?_, ?_, ?_, rfl⟩
  · simp only [mediaCallsOf, imageEntryTrace]
    rw [hc]
    simp [List.filter_append, Call.isMediaCall, geminiVisionCalls_filter_isMediaCall]
  · simp only [inferCallsOf, imageEntryTrace]
    rw [hc]
    simp [List.filter_append, Call.isInferCall, geminiVisionCalls_filter_isInferCall]
  · simp only [sendsOf, imageEntryTrace]
    rw [hc]
    simp [List.filter_append, Call.isSend, geminiVisionCalls_filter_isSend]
  · intro c hcap hc'
    subst hcap
    simp [imageReplyText, captionJson, truthy, hc', pyStr]
  · intro hcap
    subst hcap
    simp [imageReplyText, captionJson, truthy]

/-- C5, witness: concrete image turn with caption at the configured
deployment. -/
theorem claim_C5_witness :
    mediaCallsOf (handle_webhook exCfg exEnv
        (mkPayload (mkImageMessage "111" "M9" (some "look")))).2 =
      [Call.mediaMeta (Json.str "M9"), Call.mediaDownload (Json.str "https://cdn/img1")] ∧
    inferCallsOf (handle_webhook exCfg exEnv
        (mkPayload (mkImageMessage "111" "M9" (some "look")))).2 =
      [Call.inferImageCall [1, 2, 3]] ∧
    sendsOf (handle_webhook exCfg exEnv
        (mkPayload (mkImageMessage "111" "M9" (some "look")))).2 =
      [Call.send (Json.str "111")
        (Json.str (imageReplyText (captionJson (some "look")) "a cat on a mat"))] ∧
    (handle_webhook exCfg exEnv (mkPayload (mkImageMessage "111" "M9" (some "look")))).1 =
      statusJson "ok" := by
  have h := claim_C5 exCfg exEnv "111" "M9" (some "look")
    (exOkResp (Json.obj [("url", Json.str "https://cdn/img1")]))
    { status := 200, jsonBody := Except.error PyErr.jsonDecodeError,
      content := [1, 2, 3], text := "" }
    (exOkResp (Json.obj [("ok", Json.bool true)]))
    [("url", Json.str "https://cdn/img1")] (Json.obj [("ok", Json.bool true)])
    "a cat on a mat" rfl rfl rfl rfl rfl rfl rfl rfl rfl rfl
  exact ⟨h.1, h.2.1, h.2.2.1, h.2.2.2.2.2⟩

/-- C7: a first message of any kind other than image or text (the kind
field may even be absent) triggers exactly one send call carrying the
fixed unsupported-type message, no Inference-Client invocation, no media
call and no Gemini call, whatever the platform answers; the webhook still
responds `{"status": "ok"}`. -/
theorem claim_C7 (cfg : Config) (env : Env) (kvs : List (String × Json)) (fromJ : Json)
    (hfrom : lookupKey kvs "from" = some fromJ)
    (hni : Json.beq ((lookupKey kvs "type").getD Json.null) (Json.str "image") = false)
    (hnt : Json.beq ((lookupKey kvs "type").getD Json.null) (Json.str "text") = false) :
    sendsOf (handle_webhook cfg env (mkPayload (Json.obj kvs))).2 =
      [Call.send fromJ (Json.str "⚠️ Sorry, I only support image messages right now.")] ∧
    inferCallsOf (handle_webhook cfg env (mkPayload (Json.obj kvs))).2 = [] ∧
    mediaCallsOf (handle_webhook cfg env (mkPayload (Json.obj kvs))).2 = [] ∧
    geminiHttpOf (handle_webhook cfg env (mkPayload (Json.obj kvs))).2 = [] ∧
    (handle_webhook cfg env (mkPayload (Json.obj kvs))).1 = statusJson "ok" := by
  have hstep : ∀ t : Trace, messageDispatch cfg env (Json.obj kvs) t =
      ((do
        unsupportedBranch env fromJ ((lookupKey kvs "type").getD Json.null)
        pure (none : Option EarlyStatus)) : M (Option EarlyStatus))
        ⟨t.calls, t.logs ++ ["📨 Message type: " ++ pyStr ((lookupKey kvs "type").getD Json.null) ++
          " from " ++ pyStr fromJ]⟩ := by
    intro t
    simp [messageDispatch, pySubscriptS, pySubscriptSE, pyGet, hfrom, hni, hnt]
  rw [handle_webhook_dispatch, hstep]
  refine ⟨?_, ?_, ?_, ?_, ?_⟩
  · simp only [sendsOf]
    rw [wrap_branch_any_calls, unsupportedBranch_calls]
    simp [List.filter_append, Call.isSend]
  · simp only [inferCallsOf]
    rw [wrap_branch_any_calls, unsupportedBranch_calls]
    simp [List.filter_append, Call.isInferCall]
  · simp only [mediaCallsOf]
    rw [wrap_branch_any_calls, unsupportedBranch_calls]
    simp [List.filter_append, Call.isMediaCall]
  · simp only [geminiHttpOf]
    rw [wrap_branch_any_calls, unsupportedBranch_calls]
    simp [List.filter_append, Call.isGeminiHttp]
  · rw [wrap_branch_any_fst]

/-- C7, witness: a concrete "video" message. -/
theorem claim_C7_witness :
    sendsOf (handle_webhook exCfg exEnv
        (mkPayload (Json.obj [("from", Json.str "111"), ("type", Json.str "video")]))).2 =
      [Call.send (Json.str "111")
        (Json.str "⚠️ Sorry, I only support image messages right now.")] ∧
    inferCallsOf (handle_webhook exCfg exEnv
        (mkPayload (Json.obj [("from", Json.str "111"), ("type", Json.str "video")]))).2 = [] ∧
    (handle_webhook exCfg exEnv
        (mkPayload (Json.obj [("from", Json.str "111"), ("type", Json.str "video")]))).1 =
      statusJson "ok" := by
  have h := claim_C7 exCfg exEnv [("from", Json.str "111"), ("type", Json.str "video")]
    (Json.str "111") rfl rfl rfl
  exact ⟨h.1, h.2.1, h.2.2.2.2⟩

/-- C8, counterexample: the JSON body `5` has no `"entry"` key (a number
has no keys at all), yet the handler returns `{"status": "ok"}` — the
membership test `"entry" not in body` raises `TypeError` on a number,
which the catch-all `except` turns into the final "ok", not into
`{"status": "ignored - no entry"}`. -/
theorem claim_C8_counterexample :
    (handle_webhook exCfg exEnv (Json.num 5)).1 = statusJson "ok" ∧
    (handle_webhook exCfg exEnv (Json.num 5)).1 ≠ statusJson "ignored - no entry" := by
  constructor
  · rfl
  · simp [handle_webhook, webhook_try_block, initTrace, wrapStatus, pyContains, statusJson]

/-- C8 (amended): for every JSON OBJECT body lacking an `"entry"` key the
handler returns `{"status": "ignored - no entry"}`, and for every body
with a valid entry whose value object carries no `"messages"` key it
returns `{"status": "no messages"}`; both with HTTP 200 and without any
outbound call.  (Non-object bodies can instead fall through to the
catch-all and answer `{"status": "ok"}`.) -/
theorem claim_C8 (cfg : Config) (env : Env) :
    (∀ kvs : List (String × Json), hasKey kvs "entry" = false →
      (handle_webhook cfg env (Json.obj kvs)).1 = statusJson "ignored - no entry" ∧
      (handle_webhook cfg env (Json.obj kvs)).2.calls = []) ∧
    (∀ vkvs : List (String × Json), lookupKey vkvs "messages" = none →
      (handle_webhook cfg env (mkValuePayload (Json.obj vkvs))).1 = statusJson "no messages" ∧
      (handle_webhook cfg env (mkValuePayload (Json.obj vkvs))).2.calls = []) := by
  constructor
  · intro kvs h
    constructor <;>
      simp [handle_webhook, webhook_try_block, initTrace, wrapStatus, pyContains, h]
  · intro vkvs h
    constructor <;>
      simp [handle_webhook, webhook_try_block, initTrace, wrapStatus, mkValuePayload,
        pyContains, hasKey, pySubscriptS, pySubscriptSE, pySubscriptNat, pySubscriptNatE,
        pyGet, pyKeys, lookupKey, truthy, h]

/-- C8, witness: a delivery-status body without `entry`, and a valid entry
without `messages`, at the concrete fixture. -/
theorem claim_C8_witness :
    (handle_webhook exCfg exEnv (Json.obj [("object", Json.str "whatsapp_business_account")])).1 =
      statusJson "ignored - no entry" ∧
    (handle_webhook exCfg exEnv
        (mkValuePayload (Json.obj [("statuses", Json.arr [])]))).1 = statusJson "no messages" := by
  have h1 := (claim_C8 exCfg exEnv).1 [("object", Json.str "whatsapp_business_account")] rfl
  have h2 := (claim_C8 exCfg exEnv).2 [("statuses", Json.arr [])] rfl
  exact ⟨h1.1, h2.1⟩

/-- As `exEnv`, but the media-resolution call fails at the transport
level. -/
def exEnvMediaFail : Env :=
  { exEnv with mediaMetaResp := Except.error (PyErr.transportError "connection reset") }

/-- As `exEnv`, but every send fails at the transport level. -/
def exEnvSendErr : Env :=
  { exEnv with sendResp := fun _ => Except.error (PyErr.transportError "connection reset") }

/-- C6, counterexample: an image turn whose reply send is answered with
HTTP 500 — an error raised during reply sending — is caught and logged,
but NO apologetic message is attempted: the turn ends with exactly the one
(failed) reply send, while the claim demands an apology attempt for every
reply-sending error. -/
theorem claim_C6_counterexample :
    sendsOf (handle_webhook exCfg exEnvSend500 (mkPayload (mkImageMessage "111" "M9" none))).2 =
      [Call.send (Json.str "111") (Json.str "🖼️ *Image Analysis*\n\na cat on a mat")] ∧
    (handle_webhook exCfg exEnvSend500 (mkPayload (mkImageMessage "111" "M9" none))).1 =
      statusJson "ok" := by
  constructor <;> rfl

/-- C6 (amended): an error during media download is caught at the image
dispatch boundary, logged, and an apologetic message send is attempted
(whatever the platform then answers, a secondary failure is swallowed and
the handler completes with `{"status": "ok"}`); an error anywhere in the
text turn (inference never raises, so a reply-send failure) likewise
triggers one apology attempt; but a reply-send `HTTPStatusError` in the
IMAGE branch is swallowed with a log only — no apology attempt — and the
handler still completes with `{"status": "ok"}`. -/
theorem claim_C6 :
    (∀ (cfg : Config) (env : Env) (sender mediaId : String) (caption : Option String)
        (e : PyErr),
      (mediaId != "") = true →
      env.mediaMetaResp = Except.error e →
      sendsOf (handle_webhook cfg env (mkPayload (mkImageMessage sender mediaId caption))).2 =
        [Call.send (Json.str sender)
          (Json.str ("⚠️ Sorry, I encountered an error processing your image: " ++ pyErrStr e))] ∧
      ("❌ Error processing image: " ++ pyErrStr e) ∈
        (handle_webhook cfg env (mkPayload (mkImageMessage sender mediaId caption))).2.logs ∧
      (handle_webhook cfg env (mkPayload (mkImageMessage sender mediaId caption))).1 =
        statusJson "ok") ∧
    (∀ (cfg : Config) (env : Env) (sender : String) (q : Json) (e : PyErr),
      env.sendResp 0 = Except.error e →
      sendsOf (handle_webhook cfg env (mkPayload (mkTextMessage sender q))).2 =
        [Call.send (Json.str sender) (answerValue cfg env),
         Call.send (Json.str sender)
           (Json.str "⚠️ Sorry, I couldn't process your question. Please try again!")] ∧
      (handle_webhook cfg env (mkPayload (mkTextMessage sender q))).1 = statusJson "ok") ∧
    (∀ (cfg : Config) (env : Env) (sender mediaId : String) (caption : Option String)
        (mr dr r : Resp) (mkvs : List (String × Json)) (ansStr : String),
      (mediaId != "") = true →
      env.mediaMetaResp = Except.ok mr → mr.status = 200 →
      mr.jsonBody = Except.ok (Json.obj mkvs) →
      env.mediaDownloadResp = Except.ok dr → dr.status = 200 →
      analyzeValue cfg env = Json.str ansStr →
      env.sendResp 0 = Except.ok r → r.status ≠ 200 → ¬(200 ≤ r.status ∧ r.status ≤ 299) →
      sendsOf (handle_webhook cfg env (mkPayload (mkImageMessage sender mediaId caption))).2 =
        [Call.send (Json.str sender) (Json.str (imageReplyText (captionJson caption) ansStr))] ∧
      (handle_webhook cfg env (mkPayload (mkImageMessage sender mediaId caption))).1 =
        statusJson "ok") := by
  refine ⟨?_, ?_, ?_⟩
  · intro cfg env sender mediaId caption e hmid hmeta
    obtain ⟨hf, hc, hlog⟩ := imageAttempt_mediaFail cfg env (Json.str sender)
      (Json.str mediaId) (captionJson caption) (imageEntryTrace sender mediaId caption) e hmeta
    rw [handle_webhook_image cfg env sender mediaId caption hmid,
      wrap_branch_run _ _ hf]
    simp only [imageEntryTrace] at hc hlog
    refine ⟨?_, ?_, rfl⟩
    · simp only [sendsOf, imageEntryTrace]
      rw [hc]
      simp [List.filter_append, Call.isSend]
    · simp only [imageEntryTrace]
      exact hlog
  · intro cfg env sender q e hsend
    obtain ⟨hf, hc⟩ := textAttempt_sendFail cfg env (Json.str sender) q
      (textEntryTrace sender q) e (by simp [sendsOf, textEntryTrace]) hsend
    rw [handle_webhook_text,
      wrap_branch_run (textAttempt cfg env (Json.str sender) q) (textEntryTrace sender q) hf]
    simp only [textEntryTrace] at hc
    refine ⟨?_, rfl⟩
    simp only [sendsOf, textEntryTrace]
    rw [hc]
    simp [List.filter_append, Call.isSend, geminiTextCalls_filter_isSend]
  · intro cfg env sender mediaId caption mr dr r mkvs ansStr hmid h1 h2 h3 h4 h5 hana hs hne hnx
    obtain ⟨hf, hc⟩ := imageAttempt_replyHttpFail cfg env (Json.str sender) (Json.str mediaId)
      (captionJson caption) (imageEntryTrace sender mediaId caption) mr dr r mkvs ansStr
      (by simp [sendsOf, imageEntryTrace]) h1 h2 h3 h4 h5 hana hs hne hnx
    rw [handle_webhook_image cfg env sender mediaId caption hmid,
      wrap_branch_run _ _ hf]
    simp only [imageEntryTrace] at hc
    refine ⟨?_, rfl⟩
    simp only [sendsOf, imageEntryTrace]
    rw [hc]
    simp [List.filter_append, Call.isSend, geminiVisionCalls_filter_isSend]

/-- C6, witness: the three failure scenarios at concrete fixtures —
media failure with apology, text send failure with apology, image
reply-send HTTP failure with a single send and no apology. -/
theorem claim_C6_witness :
    sendsOf (handle_webhook exCfg exEnvMediaFail
        (mkPayload (mkImageMessage "111" "M9" none))).2 =
      [Call.send (Json.str "111")
        (Json.str ("⚠️ Sorry, I encountered an error processing your image: " ++
          pyErrStr (PyErr.transportError "connection reset")))] ∧
    sendsOf (handle_webhook exCfg exEnvSendErr
        (mkPayload (mkTextMessage "111" (Json.str "hi")))).2 =
      [Call.send (Json.str "111") (answerValue exCfg exEnvSendErr),
       Call.send (Json.str "111")
         (Json.str "⚠️ Sorry, I couldn't process your question. Please try again!")] ∧
    sendsOf (handle_webhook exCfg exEnvSend500
        (mkPayload (mkImageMessage "111" "M9" none))).2 =
      [Call.send (Json.str "111")
        (Json.str (imageReplyText (captionJson none) "a cat on a mat"))] := by
  have ha := (claim_C6.1 exCfg exEnvMediaFail "111" "M9" none
    (PyErr.transportError "connection reset") rfl rfl).1
  have hb := (claim_C6.2.1 exCfg exEnvSendErr "111" (Json.str "hi")
    (PyErr.transportError "connection reset") rfl).1
  have hd := (claim_C6.2.2 exCfg exEnvSend500 "111" "M9" none
    (exOkResp (Json.obj [("url", Json.str "https://cdn/img1")]))
    { status := 200, jsonBody := Except.error PyErr.jsonDecodeError,
      content := [1, 2, 3], text := "" }
    exResp500 [("url", Json.str "https://cdn/img1")] "a cat on a mat"
    rfl rfl rfl rfl rfl rfl rfl rfl (by decide) (by decide)).1
  exact ⟨ha, hb, hd⟩

/-- C2, counterexample: on an HTTP 503 from the AI endpoint the text-path
operation returns its canned degraded message, but the status code —
available on the exception — is NOT embedded in it, against the claim's
"embedding the status code where available". -/
theorem claim_C2_counterexample :
    (answer_question exCfg exEnv503 (Json.str "q") ⟨[], []⟩).1 =
      Except.ok (Json.str "⚠️ Sorry, I encountered an error. Please try again later.") ∧
    strContains "⚠️ Sorry, I encountered an error. Please try again later." "503" = false := by
  constructor <;> rfl

/-- C2 (amended): the inference operations never raise; unconfigured
credential yields canned messages without any outbound Gemini call; HTTP
429 yields the canned busy messages; any other HTTP error yields a canned
degraded message — with the status code embedded in the image path, and a
fixed status-free text in the text path; an unexpected (transport)
exception yields the canned generic messages. -/
theorem claim_C2 (cfg : Config) (env : Env) (bs : List Nat) (q : Json) (t : Trace) :
    ((analyze_image cfg env bs t).1 = Except.ok (analyzeValue cfg env) ∧
     (answer_question cfg env q t).1 = Except.ok (answerValue cfg env)) ∧
    (truthyOpt cfg.geminiApiKey = false →
      analyzeValue cfg env =
        Json.str "✅ Image received! (Connect your AI model here to analyze it.)" ∧
      answerValue cfg env = Json.str "🤖 AI is not configured. Please set up GEMINI_API_KEY." ∧
      geminiHttpOf (analyze_image cfg env bs t).2 = geminiHttpOf t ∧
      geminiHttpOf (answer_question cfg env q t).2 = geminiHttpOf t) ∧
    (truthyOpt cfg.geminiApiKey = true →
      (∀ r, env.geminiVisionResp = Except.ok r → r.status = 429 →
        analyzeValue cfg env =
          Json.str "✅ Image received! (AI is temporarily busy - please try again in a moment)") ∧
      (∀ r, env.geminiTextResp = Except.ok r → r.status = 429 →
        answerValue cfg env =
          Json.str "⏳ I'm a bit busy right now. Please try again in a moment!")) ∧
    (truthyOpt cfg.geminiApiKey = true →
      (∀ r, env.geminiVisionResp = Except.ok r → r.status ≠ 429 →
        ¬(200 ≤ r.status ∧ r.status ≤ 299) →
        analyzeValue cfg env =
          Json.str ("✅ Image received! (Analysis temporarily unavailable: " ++
            toString r.status ++ ")")) ∧
      (∀ r, env.geminiTextResp = Except.ok r → r.status ≠ 429 →
        ¬(200 ≤ r.status ∧ r.status ≤ 299) →
        answerValue cfg env =
          Json.str "⚠️ Sorry, I encountered an error. Please try again later.")) ∧
    (truthyOpt cfg.geminiApiKey = true →
      (∀ m, env.geminiVisionResp = Except.error (PyErr.transportError m) →
        analyzeValue cfg env = Json.str "✅ Image received! (Analysis encountered an error)") ∧
      (∀ m, env.geminiTextResp = Except.error (PyErr.transportError m) →
        answerValue cfg env = Json.str "⚠️ Sorry, something went wrong. Please try again.")) := by
  refine ⟨⟨analyze_image_fst cfg env bs t, answer_question_fst cfg env q t⟩, ?_, ?_, ?_, ?_⟩
  · intro hk
    refine ⟨by simp [analyzeValue, hk], by simp [answerValue, hk], ?_, ?_⟩
    · simp only [geminiHttpOf]
      rw [analyze_image_calls]
      simp [List.filter_append, Call.isGeminiHttp, geminiVisionCalls, hk]
    · simp only [geminiHttpOf]
      rw [answer_question_calls]
      simp [List.filter_append, Call.isGeminiHttp, geminiTextCalls, hk]
  · intro hk
    constructor
    · intro r hr h429
      simp [analyzeValue, inferValue, hk, hr, h429]
    · intro r hr h429
      simp [answerValue, inferValue, hk, hr, h429]
  · intro hk
    constructor
    · intro r hr h429 h2xx
      simp [analyzeValue, inferValue, analyzeFallbackValue, hk, hr, h429, h2xx]
    · intro r hr h429 h2xx
      simp [answerValue, inferValue, answerFallbackValue, hk, hr, h429, h2xx]
  · intro hk
    constructor
    · intro m hr
      simp [analyzeValue, inferValue, analyzeFallbackValue, hk, hr]
    · intro m hr
      simp [answerValue, inferValue, answerFallbackValue, hk, hr]

/-- C2, witness: unconfigured canned text answer and the 429 busy image
answer at concrete fixtures. -/
theorem claim_C2_witness :
    answerValue exCfgNoAI exEnv = Json.str "🤖 AI is not configured. Please set up GEMINI_API_KEY." ∧
    analyzeValue exCfg exEnv429 =
      Json.str "✅ Image received! (AI is temporarily busy - please try again in a moment)" := by
  refine ⟨((claim_C2 exCfgNoAI exEnv [] Json.null ⟨[], []⟩).2.1 rfl).2.1, ?_⟩
  exact ((claim_C2 exCfg exEnv429 [] Json.null ⟨[], []⟩).2.2.1 rfl).1 exResp429 rfl rfl

end WABot
